import Mathlib

/-
  Verification of the WordOps site-type resolution and provisioning pipeline.

  The definitions below are a shallow embedding of the Python sources:
    wo/cli/plugins/site_functions.py   (detSitePar, determine_site_type,
                                        database helpers, cleanup helpers)
    wo/cli/plugins/site_create.py      (the creation pipeline in default)
    wo/cli/plugins/site_autoupdate.py  (the lock helpers, _site_user)
  A Python dict of CLI options is embedded as an association list in
  dictionary iteration order; raised exceptions become Except results;
  randomness is passed in explicitly as the strings the random sampler
  would have produced; the filesystem, the MySQL server and the site
  registry are an explicit abstract state.
-/

namespace WordOps

/-! Python string primitives, embedded as structural recursion over the
character list of a string so that every definition evaluates inside the
kernel. -/
/-- Python str.strip with no argument: remove leading and trailing
whitespace. -/
def pyStrip (s : String) : String :=
  ⟨((s.data.dropWhile Char.isWhitespace).reverse.dropWhile Char.isWhitespace).reverse⟩

/-- Helper of pySplit: split a character list on a separator character. -/
def pySplitAux (sep : Char) : List Char → List Char → List String
  | [], acc => [⟨acc.reverse⟩]
  | c :: cs, acc =>
    if c = sep then ⟨acc.reverse⟩ :: pySplitAux sep cs []
    else pySplitAux sep cs (c :: acc)

/-- Python str.split with a single-character separator: split on every
occurrence of the separator. -/
def pySplit (s : String) (sep : Char) : List String :=
  pySplitAux sep s.data []

/-- Helper of pyReplace, recursing on a fuel that starts at the length of
the subject string (each step consumes at least one character). -/
def pyReplaceAux (pat rep : List Char) : Nat → List Char → List Char
  | _, [] => []
  | 0, l => l
  | fuel + 1, c :: cs =>
    if pat.isPrefixOf (c :: cs) then
      rep ++ pyReplaceAux pat rep fuel ((c :: cs).drop pat.length)
    else c :: pyReplaceAux pat rep fuel cs

/-- Python str.replace for the non-empty patterns used by the source. -/
def pyReplace (s pat rep : String) : String :=
  if pat.data = [] then s
  else ⟨pyReplaceAux pat.data rep.data s.data.length s.data⟩

/-- Python str.lower, on the basic latin letters the source feeds it. -/
def pyLower (s : String) : String :=
  ⟨s.data.map Char.toLower⟩

/-- Python string slicing from the start: the first n characters. -/
def pyTake (s : String) (n : Nat) : String :=
  ⟨s.data.take n⟩

/-- Python truthiness test of a string: true when the string is empty. -/
def pyEmpty (s : String) : Bool :=
  s.data.isEmpty

/-- PHPVersionManager.SUPPORTED_VERSIONS from site_functions.py. -/
def SUPPORTED_VERSIONS : List String :=
  ["php74", "php80", "php81", "php82", "php83", "php84"]

/-- PHPVersionManager.VERSION_MAP from site_functions.py (also the content
of WOVar.wo_php_versions used by site_create.py, whose module is not among
the sources; the spec lists the same six versions). -/
def VERSION_MAP : List (String × String) :=
  [("php74", "7.4"), ("php80", "8.0"), ("php81", "8.1"),
   ("php82", "8.2"), ("php83", "8.3"), ("php84", "8.4")]

/-- TYPE_OPTIONS of detSitePar. -/
def TYPE_OPTIONS : List String :=
  ["html", "php", "mysql", "wp", "wpsubdir", "wpsubdomain"] ++ SUPPORTED_VERSIONS

/-- CACHE_OPTIONS of detSitePar. -/
def CACHE_OPTIONS : List String :=
  ["wpfc", "wpsc", "wpredis", "wprocket", "wpce"]

/-- The parsed-options dictionary, as an association list of option name to
boolean value in dictionary iteration order. -/
abbrev Opts := List (String × Bool)

/-- typelist of detSitePar: keys with a true value that are type options. -/
def activeTypes (opts : Opts) : List String :=
  (opts.filter fun kv => kv.2 && TYPE_OPTIONS.contains kv.1).map Prod.fst

/-- cachelist of detSitePar: keys with a true value that are cache options. -/
def activeCaches (opts : Opts) : List String :=
  (opts.filter fun kv => kv.2 && CACHE_OPTIONS.contains kv.1).map Prod.fst

/-- The helper handling zero or one type option. -/
def handle_single_type (typelist : List String) (cachetype : String) :
    Except String (Option String × Option String) :=
  match typelist with
  | [] =>
    if cachetype = "basic" then Except.ok (none, none)
    else Except.ok (some "wp", some cachetype)
  | sitetype :: _ =>
    if SUPPORTED_VERSIONS.contains sitetype ∧ cachetype ≠ "basic" then
      Except.ok (some "wp", some cachetype)
    else
      Except.ok (some sitetype, some cachetype)

/-- The combination table of the multiple-type helper: six fixed entries,
then five entries generated for every supported PHP version in list order. -/
def combinations : List (List String × String) :=
  [(["php", "mysql", "html"], "mysql"),
   (["html", "mysql"], "mysql"),
   (["php", "mysql"], "mysql"),
   (["php", "html"], "php"),
   (["wp", "wpsubdir"], "wpsubdir"),
   (["wp", "wpsubdomain"], "wpsubdomain")] ++
  SUPPORTED_VERSIONS.flatMap fun php_ver =>
    [([php_ver, "mysql", "html"], "mysql"),
     ([php_ver, "mysql"], "mysql"),
     (["wp", php_ver], "wp"),
     (["wpsubdir", php_ver], "wpsubdir"),
     (["wpsubdomain", php_ver], "wpsubdomain")]

/-- The helper handling two or more type options: the first table entry whose
key set contains every active type flag decides the site type. -/
def handle_multiple_types (typelist : List String) (cachetype : String) :
    Except String (Option String × Option String) :=
  match combinations.find? (fun c => typelist.all fun t => c.1.contains t) with
  | some c => Except.ok (some c.2, some cachetype)
  | none => Except.error "could not determine site and cache type"

/-- detSitePar from site_functions.py. -/
def detSitePar (opts : Opts) : Except String (Option String × Option String) :=
  let typelist := activeTypes opts
  let cachelist := activeCaches opts
  if 1 < cachelist.length then
    Except.error "Could not determine cache type. Multiple cache parameter entered"
  else
    let cachetype := cachelist.headD "basic"
    if typelist.length ≤ 1 then handle_single_type typelist cachetype
    else handle_multiple_types typelist cachetype

/-- The combination table exactly as the claim enumerates it: the six base
entries followed, for each supported PHP version in ascending order, by the
five per-version entries. -/
def claimTable : List (List String × String) :=
  [(["php", "mysql", "html"], "mysql"),
   (["html", "mysql"], "mysql"),
   (["php", "mysql"], "mysql"),
   (["php", "html"], "php"),
   (["wp", "wpsubdir"], "wpsubdir"),
   (["wp", "wpsubdomain"], "wpsubdomain"),
   (["php74", "mysql", "html"], "mysql"), (["php74", "mysql"], "mysql"),
   (["wp", "php74"], "wp"), (["wpsubdir", "php74"], "wpsubdir"),
   (["wpsubdomain", "php74"], "wpsubdomain"),
   (["php80", "mysql", "html"], "mysql"), (["php80", "mysql"], "mysql"),
   (["wp", "php80"], "wp"), (["wpsubdir", "php80"], "wpsubdir"),
   (["wpsubdomain", "php80"], "wpsubdomain"),
   (["php81", "mysql", "html"], "mysql"), (["php81", "mysql"], "mysql"),
   (["wp", "php81"], "wp"), (["wpsubdir", "php81"], "wpsubdir"),
   (["wpsubdomain", "php81"], "wpsubdomain"),
   (["php82", "mysql", "html"], "mysql"), (["php82", "mysql"], "mysql"),
   (["wp", "php82"], "wp"), (["wpsubdir", "php82"], "wpsubdir"),
   (["wpsubdomain", "php82"], "wpsubdomain"),
   (["php83", "mysql", "html"], "mysql"), (["php83", "mysql"], "mysql"),
   (["wp", "php83"], "wp"), (["wpsubdir", "php83"], "wpsubdir"),
   (["wpsubdomain", "php83"], "wpsubdomain"),
   (["php84", "mysql", "html"], "mysql"), (["php84", "mysql"], "mysql"),
   (["wp", "php84"], "wp"), (["wpsubdir", "php84"], "wpsubdir"),
   (["wpsubdomain", "php84"], "wpsubdomain")]

/-- The slice of the argparse namespace read by determine_site_type: the
boolean flag dictionary that detSitePar sees, plus the three special-case
options. The proxy option is declared with nargs so a provided value is a
non-empty list; the field holds its first element. -/
structure Pargs where
  opts : Opts
  proxy : Option String
  aliasArg : Option String
  subsiteof : Option String

/-- determine_site_type from site_functions.py: wraps detSitePar and handles
the proxy, alias and subsiteof special cases in that order. -/
def determine_site_type (pargs : Pargs) :
    Except String (String × String × List (String × String)) :=
  match detSitePar pargs.opts with
  | Except.error _ => Except.error "Please provide valid options to creating site"
  | Except.ok (stype?, cache?) =>
    match stype? with
    | none =>
      match pargs.proxy with
      | some proxyRaw =>
        let proxyinfo := pyStrip proxyRaw
        if pyEmpty proxyinfo then
          Except.error "Please provide proxy server host information"
        else
          let parts := pySplit proxyinfo ':'
          let host := pyStrip (parts.headD "")
          let port := if parts.length < 2 then "80" else pyStrip (parts.getD 1 "")
          Except.ok ("proxy", "", [("host", host), ("port", port)])
      | none =>
        match pargs.aliasArg with
        | some aliasRaw =>
          let alias_name := pyStrip aliasRaw
          if pyEmpty alias_name then Except.error "Please provide alias name"
          else Except.ok ("alias", "", [("alias_name", alias_name)])
        | none =>
          match pargs.subsiteof with
          | some subRaw =>
            let subsiteof_name := pyStrip subRaw
            if pyEmpty subsiteof_name then
              Except.error "Please provide multisite parent name"
            else Except.ok ("subsite", "", [("subsiteof_name", subsiteof_name)])
          | none => Except.ok ("html", "basic", [])
    | some stype =>
      if pargs.proxy.isSome then
        Except.error "proxy should not be used with other site types"
      else if pargs.aliasArg.isSome then
        Except.error "alias should not be used with other site types"
      else if pargs.subsiteof.isSome then
        Except.error "subsiteof should not be used with other site types"
      else Except.ok (stype, cache?.getD "", [])

/-- Join a list of strings with a colon between the pieces. -/
def joinColon : List String → String
  | [] => ""
  | [x] => x
  | x :: xs => x ++ ":" ++ joinColon xs

/-- The proxy port as the claim reads: the text after the first colon,
with "80" as the default when there is no colon. -/
def claimProxyPort (s : String) : String :=
  let parts := pySplit s ':'
  if parts.length < 2 then "80" else joinColon parts.tail

/-- _process_domain_for_database: dots and dashes become underscores for the
database name, and all underscores are removed for the username. -/
def process_domain_for_database (domain_name : String) : String × String :=
  let wo_replace_dash := pyReplace domain_name "-" "_"
  let wo_replace_dot := pyReplace wo_replace_dash "." "_"
  let wo_replace_underscore := pyReplace wo_replace_dot "_" ""
  (wo_replace_dot, wo_replace_underscore)

/-- _generate_database_name: truncate to max_length and append an
underscore and the 8-character random sample, which is passed in
explicitly. -/
def generate_database_name (domain_processed : String) (max_length : Nat)
    (random_suffix : String) : String :=
  pyTake domain_processed max_length ++ "_" ++ random_suffix

/-- _generate_database_username: truncate to max_length and append the
4-character random sample, which is passed in explicitly. -/
def generate_database_username (domain_processed : String) (max_length : Nat)
    (random_suffix : String) : String :=
  pyTake domain_processed max_length ++ random_suffix

/-- The database name candidate computed by setupdatabase for a domain,
with the random sample made explicit. -/
def derive_db_name (domain : String) (suf8 : String) : String :=
  generate_database_name (process_domain_for_database domain).1 32 suf8

/-- The database username candidate computed by setupdatabase for a domain,
with the random sample made explicit. -/
def derive_db_user (domain : String) (suf4 : String) : String :=
  generate_database_username (process_domain_for_database domain).2 12 suf4

/-- Success or failure of each MySQL statement _create_database_and_user
issues. -/
structure DbOracle where
  connOk : Bool
  createOk : Bool
  userOk : Bool
  grantOk : Bool

/-- _create_database_and_user from site_functions.py, with the existence
check abstracted as a predicate and the random samples of the collision
branch passed explicitly. -/
def create_database_and_user (dbExists : String → Bool) (orc : DbOracle)
    (wo_db_name wo_db_username : String) (suf8 suf4 : String) :
    Except String (String × String) :=
  if !orc.connOk then Except.error "MySQL Connectivity problem occured"
  else
    let pair :=
      if dbExists wo_db_name then
        let n := generate_database_name wo_db_name 32 suf8
        (n, generate_database_username n 12 suf4)
      else (wo_db_name, wo_db_username)
    if !orc.createOk then Except.error "create database execution failed"
    else if !orc.userOk then Except.error "creating user failed for database"
    else if !orc.grantOk then Except.error "grant privileges to user failed for database"
    else Except.ok pair

/-- The environment one _acquire_lock call observes: the filesystem and
process table primitives it consults, in call order. The parsed metadata
fields default to zero exactly as the source defaults them on a parse
failure. -/
structure LockEnv where
  /-- The first exclusive create fails because the path already exists. -/
  fileExists : Bool
  /-- The first exclusive create fails with an error other than EEXIST. -/
  otherCreateError : Bool
  /-- pid parsed from the lock file, 0 when missing or unreadable. -/
  pid : Nat
  /-- ts parsed from the lock file, 0 when missing or unreadable. -/
  ts : Int
  /-- The clock value at the age check. -/
  now : Int
  /-- Whether signal 0 delivery succeeds for a pid (the process exists). -/
  pidAlive : Nat → Bool
  /-- The retried exclusive create succeeds. -/
  retryCreateOk : Bool

/-- What one _acquire_lock call did and returned. -/
structure LockResult where
  acquired : Bool
  removedStale : Bool
  retried : Bool
deriving DecidableEq, Repr

/-- _acquire_lock from site_autoupdate.py: atomic create, then staleness
check by age and by owner liveness, then delete and one retried create. -/
def acquire_lock (env : LockEnv) (max_age_sec : Int) : LockResult :=
  if env.fileExists = false ∧ env.otherCreateError = false then
    ⟨true, false, false⟩
  else if env.otherCreateError then
    ⟨false, false, false⟩
  else
    let staleAge := env.ts ≠ 0 ∧ env.now - env.ts > max_age_sec
    let stalePid := env.pid ≠ 0 ∧ env.pidAlive env.pid = false
    if staleAge ∨ stalePid then
      if env.retryCreateOk then ⟨true, true, true⟩ else ⟨false, true, true⟩
    else ⟨false, false, false⟩

/-- _release_lock from site_autoupdate.py: best-effort delete with errors
swallowed, so it always returns (the lock file is gone afterwards unless
the delete failed). -/
def release_lock (lockPresent : Bool) (removeOk : Bool) : Bool :=
  if lockPresent then removeOk else false

/-- The abstract system state: nginx vhost configurations and webroot
directories on disk, databases and database users on the MySQL server,
site registry entries, and configured php-fpm pools. -/
structure SysState where
  nginxConfs : List String
  dirs : List String
  dbs : List String
  dbUsers : List String
  registry : List String
  pools : List String
deriving DecidableEq, Repr

/-- The slice of the site data dictionary that the embedded pipeline
reads. Optional fields mirror keys that may be absent from the dict. -/
structure SiteData where
  siteName : String
  webroot : String
  wp : Bool
  /-- Whether the wo_db_name key is present (the mysql and wp family
  dictionaries carry it from construction, with the empty string). -/
  hasDbKey : Bool
  dbName : String
  dbUser : String
  dbPass : String
  dbHost : String
  grantHost : String
  poolName : String
  woPhp : Option String
  phpVer : Option String
  phpFpmUser : Option String
  isProxy : Bool
  isAlias : Bool
  isSubsite : Bool
deriving DecidableEq, Repr

/-- Success or failure of each fallible step of the pipeline. -/
structure StepOracle where
  setupdomainOk : Bool
  reloadSiteOk : Bool
  db : DbOracle
  wpConfigOk : Bool
  wpOk : Bool
  phpFpmOk : Bool
  reloadFinalOk : Bool
  permissionsOk : Bool

/-- removeNginxConf from site_functions.py: removes the vhost files only
when the sites-available file exists. -/
def removeNginxConf (domain : String) (st : SysState) : SysState :=
  if st.nginxConfs.contains domain then
    { st with nginxConfs := st.nginxConfs.erase domain }
  else st

/-- deleteWebRoot from site_functions.py: strips the path, refuses the
shared web root paths, and removes the directory only when it exists.
Returns the new state and the boolean result of the source function. -/
def deleteWebRoot (st : SysState) (webroot : String) : SysState × Bool :=
  let w := pyStrip webroot
  if w = "/var/www/" ∨ w = "/var/www" ∨ w = "/var/www/.." ∨ w = "/var/www/." then
    (st, false)
  else if st.dirs.contains w then
    ({ st with dirs := st.dirs.erase w }, true)
  else (st, false)

/-- deleteDB from site_functions.py: drop the database when it exists, and
drop the user unless it is root (statement failures are logged and
swallowed). -/
def deleteDB (st : SysState) (dbname dbuser : String) : SysState :=
  let st1 :=
    if st.dbs.contains dbname then { st with dbs := st.dbs.erase dbname } else st
  if dbuser ≠ "root" then { st1 with dbUsers := st1.dbUsers.erase dbuser } else st1

/-- doCleanupAction from site_functions.py: remove the nginx vhost when a
domain is given, the webroot when one is given, and the database and user
when a database name is given; a database name without a user or host is a
SiteError. -/
def doCleanupAction (st : SysState) (domain webroot dbname dbuser dbhost : String) :
    Except String SysState :=
  let st1 := if domain ≠ "" then removeNginxConf domain st else st
  let st2 := if webroot ≠ "" then (deleteWebRoot st1 webroot).1 else st1
  if dbname ≠ "" then
    if dbuser = "" then Except.error "dbuser not provided"
    else if dbhost = "" then Except.error "dbhost not provided"
    else Except.ok (deleteDB st2 dbname dbuser)
  else Except.ok st2

/-- Modelled from the spec: registry.create of the external site registry
(the sitedb module is not among the sources); it records an entry for the
domain. -/
def addNewSite (st : SysState) (domain : String) : SysState :=
  { st with registry := domain :: st.registry }

/-- Modelled from the spec: registry.delete of the external site registry
(the sitedb module is not among the sources); it removes the entry for the
domain. -/
def deleteSiteInfo (st : SysState) (domain : String) : SysState :=
  { st with registry := st.registry.erase domain }

/-- Unwrap a cleanup result that cannot fail (no database arguments). -/
def cleanupOr (st : SysState) (res : Except String SysState) : SysState :=
  match res with
  | Except.ok s => s
  | Except.error _ => st

/-- handle_site_error_cleanup from site_functions.py, minus its final
fatal log call which the pipeline models as the fatal outcome: webroot
cleanup, then database cleanup when all three database arguments are
non-empty, then registry entry removal. -/
def handle_site_error_cleanup (st : SysState)
    (domain webroot dbname dbuser dbhost : String) : SysState :=
  let st1 := cleanupOr st (doCleanupAction st domain webroot "" "" "")
  let st2 :=
    if dbname ≠ "" ∧ dbuser ≠ "" ∧ dbhost ≠ "" then
      cleanupOr st1 (doCleanupAction st1 domain "" dbname dbuser dbhost)
    else st1
  deleteSiteInfo st2 domain

/-- The final message of every fatal cleanup path (Log.error is part of
the logging module, not among the sources; modelled from the spec as the
terminal non-retryable error surfaced to the caller). -/
def logMsg : String :=
  "Check the log for details: `tail /var/log/wo/wordops.log` and please try again"

/-- The fatal message of the reload failure inside the special-type
branches, whose first Log.error call already terminates the run. -/
def reloadFailMsg : String :=
  "service nginx reload failed. check issues with `nginx -t` command"

/-- The steps whose execution the embedded pipeline records. -/
inductive StepEv
  | vhostWebroot
  | registryAdd
  | nginxReload
  | dbProvision
  | wpInstall
  | phpFpmPool
  | permissions
deriving DecidableEq, Repr

/-- How one pipeline run ended: success, or a terminal Log.error. -/
inductive RunOutcome
  | success
  | fatal (msg : String)
deriving DecidableEq, Repr

/-- The observable result of a pipeline run: final system state, final
site data dictionary, the executed steps and the outcome. -/
structure RunOut where
  sys : SysState
  data : SiteData
  trace : List StepEv
  outcome : RunOutcome
deriving DecidableEq, Repr

/-- The shared failure handler of the php-fpm, final-reload and
permissions steps: webroot cleanup, database cleanup when the data
dictionary has the wo_db_name key, registry entry removal, fatal error.
An error inside the database cleanup would propagate to the outer handler
before the registry removal, with the same fatal message. -/
def db_cleanup_and_fatal (d : SiteData) (st : SysState) (tr : List StepEv) : RunOut :=
  let st1 := cleanupOr st (doCleanupAction st d.siteName d.webroot "" "" "")
  if d.hasDbKey then
    match doCleanupAction st1 d.siteName "" d.dbName d.dbUser d.grantHost with
    | Except.error _ => ⟨st1, d, tr, RunOutcome.fatal logMsg⟩
    | Except.ok st2 => ⟨deleteSiteInfo st2 d.siteName, d, tr, RunOutcome.fatal logMsg⟩
  else ⟨deleteSiteInfo st1 d.siteName, d, tr, RunOutcome.fatal logMsg⟩

/-- setwebrootpermissions, the last step of the pipeline. -/
def phase_permissions (d : SiteData) (orc : StepOracle) (st : SysState)
    (tr : List StepEv) : RunOut :=
  if orc.permissionsOk then
    ⟨st, d, tr ++ [StepEv.permissions], RunOutcome.success⟩
  else db_cleanup_and_fatal d st (tr ++ [StepEv.permissions])

/-- The final nginx reload, after the php-fpm step. -/
def phase_reload_final (d : SiteData) (orc : StepOracle) (st : SysState)
    (tr : List StepEv) : RunOut :=
  if orc.reloadFinalOk then
    phase_permissions d orc st (tr ++ [StepEv.nginxReload])
  else db_cleanup_and_fatal d st (tr ++ [StepEv.nginxReload])

/-- setup_php_fpm from site_functions.py: skipped entirely when the data
dictionary has no php_ver key; with one, incomplete pool data raises, and
otherwise the pool is configured (the wo_php key is resolved through the
version table as WOVar.wo_php_versions.get does). -/
def phase_phpfpm (d : SiteData) (orc : StepOracle) (st : SysState)
    (tr : List StepEv) : RunOut :=
  match d.phpVer with
  | none => phase_reload_final d orc st tr
  | some pv =>
    let php_version := (d.woPhp.bind fun k =>
      (VERSION_MAP.find? fun kv => kv.1 = k).map Prod.snd).getD ""
    if d.poolName = "" ∨ pv = "" ∨ php_version = "" ∨ d.webroot = "" then
      db_cleanup_and_fatal d st tr
    else if orc.phpFpmOk then
      phase_reload_final d orc { st with pools := d.poolName :: st.pools }
        (tr ++ [StepEv.phpFpmPool])
    else db_cleanup_and_fatal d st (tr ++ [StepEv.phpFpmPool])

/-- The WordPress installation step: setupwordpress provisions the
database itself and installs the application; the embedding keeps its
database effects coarse through the same setupdatabase model and treats
any failure as the single SiteError the caller handles. -/
def setupdatabase (d : SiteData) (orc : DbOracle) (rnd : List String)
    (st : SysState) : Except (String × SysState) (SiteData × SysState) :=
  let pass := rnd.getD 0 ""
  let processed := process_domain_for_database d.siteName
  let name0 := generate_database_name processed.1 32 (rnd.getD 1 "")
  let user0 := generate_database_username processed.2 12 (rnd.getD 2 "")
  if !orc.connOk then Except.error ("MySQL Connectivity problem occured", st)
  else
    let collide := st.dbs.contains name0
    let name1 := if collide then generate_database_name name0 32 (rnd.getD 3 "") else name0
    let user1 :=
      if collide then generate_database_username name1 12 (rnd.getD 4 "") else user0
    if !orc.createOk then Except.error ("create database execution failed", st)
    else
      let st1 := { st with dbs := name1 :: st.dbs }
      if !orc.userOk then Except.error ("creating user failed for database", st1)
      else
        let st2 := { st1 with dbUsers := user1 :: st1.dbUsers }
        if !orc.grantOk then
          Except.error ("grant privileges to user failed for database", st2)
        else
          Except.ok
            ({ d with dbName := name1, dbUser := user1, dbPass := pass,
                      dbHost := "localhost", grantHost := "localhost" }, st2)

/-- The WordPress step of the pipeline. -/
def phase_wp (d : SiteData) (orc : StepOracle) (rnd : List String)
    (st : SysState) (tr : List StepEv) : RunOut :=
  if d.wp then
    match setupdatabase d orc.db rnd st with
    | Except.error (_, stE) =>
      match doCleanupAction stE d.siteName d.webroot d.dbName d.dbUser d.grantHost with
      | Except.error _ => ⟨stE, d, tr ++ [StepEv.wpInstall], RunOutcome.fatal logMsg⟩
      | Except.ok st1 =>
        ⟨deleteSiteInfo st1 d.siteName, d, tr ++ [StepEv.wpInstall],
         RunOutcome.fatal logMsg⟩
    | Except.ok (d1, st1) =>
      if orc.wpOk then phase_phpfpm d1 orc st1 (tr ++ [StepEv.wpInstall])
      else
        match doCleanupAction st1 d1.siteName d1.webroot d1.dbName d1.dbUser
            d1.grantHost with
        | Except.error _ => ⟨st1, d1, tr ++ [StepEv.wpInstall], RunOutcome.fatal logMsg⟩
        | Except.ok st2 =>
          ⟨deleteSiteInfo st2 d1.siteName, d1, tr ++ [StepEv.wpInstall],
           RunOutcome.fatal logMsg⟩
  else phase_phpfpm d orc st tr

/-- The database step of the pipeline: setupdatabase followed by the
wo-config.php write, each with the cleanup of site_create.py on failure
(at the setupdatabase failure the dict still holds the construction values
of the database keys, so the database cleanup arguments are empty). -/
def phase_db (d : SiteData) (orc : StepOracle) (rnd : List String)
    (st : SysState) (tr : List StepEv) : RunOut :=
  if d.hasDbKey ∧ ¬d.wp then
    match setupdatabase d orc.db rnd st with
    | Except.error (_, stE) =>
      ⟨handle_site_error_cleanup stE d.siteName d.webroot d.dbName d.dbUser d.dbHost,
       d, tr ++ [StepEv.dbProvision], RunOutcome.fatal logMsg⟩
    | Except.ok (d1, st1) =>
      if orc.wpConfigOk then phase_wp d1 orc rnd st1 (tr ++ [StepEv.dbProvision])
      else
        ⟨handle_site_error_cleanup st1 d1.siteName d1.webroot d1.dbName d1.dbUser
           d1.dbHost, d1, tr ++ [StepEv.dbProvision], RunOutcome.fatal logMsg⟩
  else phase_wp d orc rnd st tr

/-- The pipeline of site_create.py default from setupdomain onward: vhost
and webroot setup, the registry entry (with an immediate reload for the
proxy, alias and subsite branches), then the database, WordPress, php-fpm,
reload and permissions steps. -/
def run_site_create (d : SiteData) (orc : StepOracle) (rnd : List String)
    (st0 : SysState) : RunOut :=
  if orc.setupdomainOk then
    let st1 := { st0 with nginxConfs := d.siteName :: st0.nginxConfs,
                          dirs := d.webroot :: st0.dirs }
    if d.isProxy ∨ d.isAlias ∨ d.isSubsite then
      let st2 := addNewSite st1 d.siteName
      if orc.reloadSiteOk then
        phase_db d orc rnd st2
          [StepEv.vhostWebroot, StepEv.registryAdd, StepEv.nginxReload]
      else
        let st3 := cleanupOr st2 (doCleanupAction st2 d.siteName "" "" "" "")
        ⟨deleteSiteInfo st3 d.siteName, d,
         [StepEv.vhostWebroot, StepEv.registryAdd, StepEv.nginxReload],
         RunOutcome.fatal reloadFailMsg⟩
    else
      phase_db d orc rnd (addNewSite st1 d.siteName)
        [StepEv.vhostWebroot, StepEv.registryAdd]
  else
    ⟨deleteSiteInfo
       (cleanupOr st0 (doCleanupAction st0 d.siteName d.webroot "" "" "")) d.siteName,
     d, [], RunOutcome.fatal logMsg⟩

/-- data pool_name of site_create.py default: replace dots with dashes,
then lower-case. -/
def pool_name_of (domain : String) : String :=
  pyLower (pyReplace domain "." "-")

/-- The pool name as the claim words it: the domain lower-cased, with
every dot replaced by a dash. -/
def pool_name_claim (domain : String) : String :=
  pyReplace (pyLower domain) "." "-"

/-- Modelled from the spec: the shape of a site registry entry getSiteInfo
returns (the sitedb module is not among the sources; the spec lists domain
name, site type, cache type, webroot path, php version, ssl and enabled
flags). -/
structure SiteInfoRec where
  sitename : String
  siteType : String
  cacheType : String
  phpVersion : String
  isEnabled : Bool
  sitePath : String
deriving DecidableEq, Repr

/-- Reverse lookup in the version table: the option key whose version
number equals the configured default. -/
def lookupVersionKey (configVer : String) : Option String :=
  (VERSION_MAP.find? fun kv => kv.2 = configVer).map Prod.fst

/-- The php version resolution loop of site_create.py default: a version
flag on the command line wins; otherwise a php section in the app config
selects the matching key, keeping any previously stored key when the
configured version matches no table entry; with neither, any previously
stored key stays. -/
def resolve_wo_php (pargsPhp : Option String) (configPhp : Option String)
    (base : Option String) : Option String :=
  match pargsPhp with
  | some k => some k
  | none =>
    match configPhp with
    | some ver =>
      match lookupVersionKey ver with
      | some k => some k
      | none => base
    | none => base

/-- The tracked fields every per-type data dictionary starts from. -/
def empty_data (wo_domain wo_site_webroot : String) : SiteData :=
  { siteName := wo_domain, webroot := wo_site_webroot,
    wp := false, hasDbKey := false, dbName := "", dbUser := "", dbPass := "",
    dbHost := "", grantHost := "", poolName := "", woPhp := none,
    phpVer := none, phpFpmUser := none,
    isProxy := false, isAlias := false, isSubsite := false }

/-- The tail of the data construction, shared by every site type: the
rebuild when a php version flag is present, the rebuilds for the static
and database site-type families, the php version resolution, and the pool
name and php-fpm fields. -/
def finalize_data (stype : String) (d0 : SiteData)
    (wo_domain wo_site_webroot : String)
    (pargsPhp configPhp : Option String) : SiteData :=
  let base0 := empty_data wo_domain wo_site_webroot
  let d1 := if pargsPhp.isSome then base0 else d0
  let d2 :=
    if stype = "html" ∨ stype = "php" then base0
    else if stype = "mysql" ∨ stype = "wp" ∨ stype = "wpsubdir" ∨
        stype = "wpsubdomain" then
      { base0 with hasDbKey := true,
                   wp := stype = "wp" ∨ stype = "wpsubdir" ∨ stype = "wpsubdomain" }
    else d1
  let d3 := { d2 with woPhp := resolve_wo_php pargsPhp configPhp d2.woPhp }
  let pool := pool_name_of wo_domain
  let d4 := { d3 with poolName := pool }
  match d4.woPhp with
  | some k =>
    { d4 with phpVer := some (pyReplace k "php" ""),
              phpFpmUser := some ("php-" ++ pool) }
  | none => d4

/-- The data dictionary construction of site_create.py default for a
classified site type, restricted to the tracked fields: the per-type
dictionaries, the subsite parent checks, then the shared tail. -/
def build_data (stype : String) (extra : List (String × String))
    (wo_domain wo_site_webroot : String)
    (getSite : String → Option SiteInfoRec)
    (pargsPhp : Option String) (configPhp : Option String) :
    Except String SiteData :=
  let base0 := empty_data wo_domain wo_site_webroot
  match
    (if stype = "proxy" then Except.ok { base0 with isProxy := true }
     else if stype = "alias" then Except.ok { base0 with isAlias := true }
     else if stype = "subsite" then
       let parentName := (extra.lookup "subsiteof_name").getD ""
       match getSite parentName with
       | none => Except.error ("Parent site " ++ parentName ++ " does not exist")
       | some parent =>
         if ¬parent.isEnabled then
           Except.error ("Parent site " ++ parentName ++ " is not enabled")
         else if ¬(parent.siteType = "wpsubdomain" ∨ parent.siteType = "wpsubdir") then
           Except.error ("Parent site " ++ parentName ++ " is not WordPress multisite")
         else
           Except.ok { base0 with
             wp := parent.siteType = "wp",
             woPhp := some (pyReplace ("php" ++ parent.phpVersion) "." ""),
             isSubsite := true }
     else Except.ok base0) with
  | Except.error e => Except.error e
  | Except.ok d0 =>
    Except.ok (finalize_data stype d0 wo_domain wo_site_webroot pargsPhp configPhp)

/-- _site_slug of site_autoupdate.py. -/
def site_slug (siteinfo : SiteInfoRec) : String :=
  pyLower (pyReplace siteinfo.sitename "." "-")

/-- _site_user of site_autoupdate.py. -/
def site_user (siteinfo : SiteInfoRec) : String :=
  "php-" ++ site_slug siteinfo

/-- The parent registry entry of the subsite example. -/
def demoParent : SiteInfoRec :=
  ⟨"parent.com", "wpsubdir", "basic", "8.1", true, "/var/www/parent.com"⟩

/-- The registry lookup of the subsite example. -/
def demoGetSite : String → Option SiteInfoRec :=
  fun n => if n = "parent.com" then some demoParent else none

/-- The oracle under which every step succeeds. -/
def allOk : StepOracle :=
  ⟨true, true, ⟨true, true, true, true⟩, true, true, true, true, true⟩

/-- The empty system state. -/
def emptySys : SysState := ⟨[], [], [], [], [], []⟩

/-- The site data the source builds for the subsite example (the parent
carries php 8.1, the app config has no php section). -/
def cexSubsiteData : SiteData :=
  { siteName := "sub.parent.com", webroot := "/var/www/sub.parent.com",
    wp := false, hasDbKey := false, dbName := "", dbUser := "", dbPass := "",
    dbHost := "", grantHost := "", poolName := "sub-parent-com",
    woPhp := some "php81", phpVer := some "81",
    phpFpmUser := some "php-sub-parent-com",
    isProxy := false, isAlias := false, isSubsite := true }

/-- The mysql-type data dictionary of the rollback witness. -/
def mysqlData : SiteData :=
  { siteName := "shop.example.com", webroot := "/var/www/shop.example.com",
    wp := false, hasDbKey := true, dbName := "", dbUser := "", dbPass := "",
    dbHost := "", grantHost := "", poolName := "shop-example-com",
    woPhp := some "php84", phpVer := some "84",
    phpFpmUser := some "php-shop-example-com",
    isProxy := false, isAlias := false, isSubsite := false }

/-- The oracle under which only the php-fpm pool step fails. -/
def failPhpFpm : StepOracle :=
  ⟨true, true, ⟨true, true, true, true⟩, true, true, false, true, true⟩

theorem combinations_eq_claimTable : combinations = claimTable := by decide

/-- C1: with two or more active type flags (and at most one active cache
flag, so that cache resolution succeeds), detSitePar returns the site type
of the first entry of the fixed combination table whose key set contains
the active type-flag set, paired with the resolved cache type, and raises
the error when no entry matches; in particular wp with wpsubdir resolves to
wpsubdir with basic cache, and php84 with mysql and html resolves to mysql
with basic cache. -/
theorem detSitePar_multi_type_table :
    combinations = claimTable ∧
    (∀ opts : Opts, 2 ≤ (activeTypes opts).length → (activeCaches opts).length ≤ 1 →
      detSitePar opts =
        match claimTable.find? (fun c => (activeTypes opts).all fun t => c.1.contains t) with
        | some c => Except.ok (some c.2, some ((activeCaches opts).headD "basic"))
        | none => Except.error "could not determine site and cache type") ∧
    detSitePar [("wp", true), ("wpsubdir", true)] =
      Except.ok (some "wpsubdir", some "basic") ∧
    detSitePar [("php84", true), ("mysql", true), ("html", true)] =
      Except.ok (some "mysql", some "basic") := by
  refine ⟨combinations_eq_claimTable, ?_, rfl, rfl⟩
  intro opts h2 h1
  simp only [detSitePar]
  rw [if_neg (by omega), if_neg (by omega)]
  simp only [handle_multiple_types, combinations_eq_claimTable]

/-- Witness for C1: the theorem applied to the wp with wpsubdir input. -/
theorem detSitePar_multi_type_table_witness :
    detSitePar [("wp", true), ("wpsubdir", true)] =
      Except.ok (some "wpsubdir", some "basic") :=
  (detSitePar_multi_type_table.2.1 [("wp", true), ("wpsubdir", true)]
    (by decide) (by decide)).trans (by rfl)

/-- C5: more than one active cache flag is an error; otherwise the cache
type is the single active cache flag or basic; with no type flag the result
is (none, none) for basic cache and wp with the cache otherwise; with one
type flag the result is wp with the cache when the flag is a PHP version
and the cache is not basic, and the flag with the cache verbatim otherwise. -/
theorem detSitePar_single_type_cases :
    (∀ opts : Opts, 1 < (activeCaches opts).length →
      detSitePar opts =
        Except.error "Could not determine cache type. Multiple cache parameter entered") ∧
    (∀ opts : Opts, (activeCaches opts).length ≤ 1 → activeTypes opts = [] →
      detSitePar opts =
        if (activeCaches opts).headD "basic" = "basic" then Except.ok (none, none)
        else Except.ok (some "wp", some ((activeCaches opts).headD "basic"))) ∧
    (∀ (opts : Opts) (t : String),
      (activeCaches opts).length ≤ 1 → activeTypes opts = [t] →
      detSitePar opts =
        if SUPPORTED_VERSIONS.contains t ∧ (activeCaches opts).headD "basic" ≠ "basic" then
          Except.ok (some "wp", some ((activeCaches opts).headD "basic"))
        else Except.ok (some t, some ((activeCaches opts).headD "basic"))) := by
  refine ⟨?_, ?_, ?_⟩
  · intro opts h
    simp only [detSitePar]
    rw [if_pos h]
  · intro opts hc ht
    simp only [detSitePar]
    rw [if_neg (by omega), ht]
    simp [handle_single_type]
  · intro opts t hc ht
    simp only [detSitePar]
    rw [if_neg (by omega), ht]
    simp [handle_single_type]

/-- Witness for C5: the three cases applied at concrete inputs: two cache
flags, a lone cache flag, and a PHP version flag with a cache flag. -/
theorem detSitePar_single_type_cases_witness :
    detSitePar [("wpfc", true), ("wpsc", true)] =
      Except.error "Could not determine cache type. Multiple cache parameter entered" ∧
    detSitePar [("wpredis", true)] = Except.ok (some "wp", some "wpredis") ∧
    detSitePar [("php84", true), ("wpfc", true)] = Except.ok (some "wp", some "wpfc") :=
  ⟨detSitePar_single_type_cases.1 [("wpfc", true), ("wpsc", true)] (by decide),
   (detSitePar_single_type_cases.2.1 [("wpredis", true)] (by decide) (by decide)).trans
     (by rfl),
   (detSitePar_single_type_cases.2.2 [("php84", true), ("wpfc", true)] "php84"
     (by decide) (by decide)).trans (by rfl)⟩

/-- Counterexample to C4: with no resolved site type and both a proxy and
an alias option present, determine_site_type silently returns the proxy
descriptor instead of raising a conflict error. -/
theorem determine_site_type_conflict_cex :
    (determine_site_type ⟨[], some "1.2.3.4", some "other.com", none⟩).isOk = true ∧
    determine_site_type ⟨[], some "1.2.3.4", some "other.com", none⟩ =
      Except.ok ("proxy", "", [("host", "1.2.3.4"), ("port", "80")]) :=
  ⟨rfl, rfl⟩

/-- C4 amended: the classifier raises a conflict error exactly when the
flag resolver returned a non-none site type and a proxy, alias or subsiteof
option is also present, the message naming the first present option in the
order proxy, alias, subsiteof; with no resolved type no conflict error can
arise: any raised error is one of the three provide-information messages,
the first present option alone determines the outcome (later options are
ignored), giving that option descriptor when its trimmed value is non-empty
and that option own missing-information error when it trims to empty, and
with no option present the result is html with basic cache. The
non-emptiness hypotheses on the alias and subsiteof values encode Python
truthiness: an empty option string is an absent option. -/
theorem determine_site_type_conflict_amended :
    (∀ (p : Pargs) (t : String) (c : Option String),
      detSitePar p.opts = Except.ok (some t, c) →
      determine_site_type p =
        (if p.proxy.isSome then
          Except.error "proxy should not be used with other site types"
        else if p.aliasArg.isSome then
          Except.error "alias should not be used with other site types"
        else if p.subsiteof.isSome then
          Except.error "subsiteof should not be used with other site types"
        else Except.ok (t, c.getD "", []))) ∧
    (∀ (p : Pargs) (c : Option String) (e : String),
      detSitePar p.opts = Except.ok (none, c) →
      determine_site_type p = Except.error e →
      e = "Please provide proxy server host information" ∨
      e = "Please provide alias name" ∨
      e = "Please provide multisite parent name") ∧
    (∀ (p : Pargs) (c : Option String) (v : String),
      detSitePar p.opts = Except.ok (none, c) → p.proxy = some v →
      determine_site_type p = determine_site_type ⟨p.opts, some v, none, none⟩ ∧
      (pyEmpty (pyStrip v) = false →
        ∃ info, determine_site_type p = Except.ok ("proxy", "", info)) ∧
      (pyEmpty (pyStrip v) = true →
        determine_site_type p =
          Except.error "Please provide proxy server host information")) ∧
    (∀ (p : Pargs) (c : Option String) (v : String),
      detSitePar p.opts = Except.ok (none, c) →
      p.proxy = none → p.aliasArg = some v → v ≠ "" →
      determine_site_type p = determine_site_type ⟨p.opts, none, some v, none⟩ ∧
      (pyEmpty (pyStrip v) = false →
        determine_site_type p =
          Except.ok ("alias", "", [("alias_name", pyStrip v)])) ∧
      (pyEmpty (pyStrip v) = true →
        determine_site_type p = Except.error "Please provide alias name")) ∧
    (∀ (p : Pargs) (c : Option String) (v : String),
      detSitePar p.opts = Except.ok (none, c) →
      p.proxy = none → p.aliasArg = none → p.subsiteof = some v → v ≠ "" →
      determine_site_type p = determine_site_type ⟨p.opts, none, none, some v⟩ ∧
      (pyEmpty (pyStrip v) = false →
        determine_site_type p =
          Except.ok ("subsite", "", [("subsiteof_name", pyStrip v)])) ∧
      (pyEmpty (pyStrip v) = true →
        determine_site_type p =
          Except.error "Please provide multisite parent name")) ∧
    (∀ (p : Pargs) (c : Option String),
      detSitePar p.opts = Except.ok (none, c) →
      p.proxy = none → p.aliasArg = none → p.subsiteof = none →
      determine_site_type p = Except.ok ("html", "basic", [])) := by
  refine ⟨?_, ?_, ?_, ?_, ?_, ?_⟩
  · intro p t c h
    cases hpx : p.proxy <;> cases hal : p.aliasArg <;> cases hsub : p.subsiteof <;>
      simp [determine_site_type, h, hpx, hal, hsub]
  · intro p c e h he
    cases hpx : p.proxy with
    | some v =>
      by_cases hb : pyEmpty (pyStrip v) = true
      · simp [determine_site_type, h, hpx, hb] at he
        exact Or.inl he.symm
      · simp [determine_site_type, h, hpx, hb] at he
    | none =>
      cases hal : p.aliasArg with
      | some v =>
        by_cases hb : pyEmpty (pyStrip v) = true
        · simp [determine_site_type, h, hpx, hal, hb] at he
          exact Or.inr (Or.inl he.symm)
        · simp [determine_site_type, h, hpx, hal, hb] at he
      | none =>
        cases hsub : p.subsiteof with
        | some v =>
          by_cases hb : pyEmpty (pyStrip v) = true
          · simp [determine_site_type, h, hpx, hal, hsub, hb] at he
            exact Or.inr (Or.inr he.symm)
          · simp [determine_site_type, h, hpx, hal, hsub, hb] at he
        | none =>
          simp [determine_site_type, h, hpx, hal, hsub] at he
  · intro p c v h hp
    refine ⟨by simp [determine_site_type, h, hp], ?_, ?_⟩
    · intro hne
      exact ⟨[("host", pyStrip ((pySplit (pyStrip v) ':').headD "")),
              ("port", if (pySplit (pyStrip v) ':').length < 2 then "80"
                       else pyStrip ((pySplit (pyStrip v) ':').getD 1 ""))],
             by simp [determine_site_type, h, hp, hne]⟩
    · intro hb
      simp [determine_site_type, h, hp, hb]
  · intro p c v h hp ha hv
    refine ⟨by simp [determine_site_type, h, hp, ha], ?_, ?_⟩
    · intro hne
      simp [determine_site_type, h, hp, ha, hne]
    · intro hb
      simp [determine_site_type, h, hp, ha, hb]
  · intro p c v h hp ha hs hv
    refine ⟨by simp [determine_site_type, h, hp, ha, hs], ?_, ?_⟩
    · intro hne
      simp [determine_site_type, h, hp, ha, hs, hne]
    · intro hb
      simp [determine_site_type, h, hp, ha, hs, hb]
  · intro p c h hp ha hs
    simp [determine_site_type, h, hp, ha, hs]

/-- Witness for the amended C4: a wp flag with a proxy option raises the
proxy conflict error; a blank proxy value with no type raises a
provide-information message; a proxy value wins over a present alias
option; a blank alias value raises the alias message; a subsiteof value
alone yields the subsite descriptor; and no options at all yield html with
basic cache. -/
theorem determine_site_type_conflict_amended_witness :
    determine_site_type ⟨[("wp", true)], some "1.2.3.4", none, none⟩ =
      Except.error "proxy should not be used with other site types" ∧
    (("Please provide proxy server host information" : String) =
        "Please provide proxy server host information" ∨
      ("Please provide proxy server host information" : String) =
        "Please provide alias name" ∨
      ("Please provide proxy server host information" : String) =
        "Please provide multisite parent name") ∧
    determine_site_type ⟨[], some "1.2.3.4", some "other.com", none⟩ =
      determine_site_type ⟨[], some "1.2.3.4", none, none⟩ ∧
    determine_site_type ⟨[], none, some " ", some "parent.com"⟩ =
      Except.error "Please provide alias name" ∧
    determine_site_type ⟨[], none, none, some "parent.com"⟩ =
      Except.ok ("subsite", "", [("subsiteof_name", "parent.com")]) ∧
    determine_site_type ⟨[], none, none, none⟩ =
      Except.ok ("html", "basic", []) :=
  ⟨by
    have h := determine_site_type_conflict_amended.1
      ⟨[("wp", true)], some "1.2.3.4", none, none⟩ "wp" (some "basic") rfl
    simpa using h,
   determine_site_type_conflict_amended.2.1 ⟨[], some " ", none, none⟩ none
     "Please provide proxy server host information" rfl rfl,
   (determine_site_type_conflict_amended.2.2.1
     ⟨[], some "1.2.3.4", some "other.com", none⟩ none "1.2.3.4" rfl rfl).1,
   (determine_site_type_conflict_amended.2.2.2.1
     ⟨[], none, some " ", some "parent.com"⟩ none " " rfl rfl rfl
     (by decide)).2.2 rfl,
   (determine_site_type_conflict_amended.2.2.2.2.1
     ⟨[], none, none, some "parent.com"⟩ none "parent.com" rfl rfl rfl rfl
     (by decide)).2.1 rfl,
   determine_site_type_conflict_amended.2.2.2.2.2 ⟨[], none, none, none⟩ none
     rfl rfl rfl rfl⟩

/-- Counterexample to C8: the code splits the proxy value on every colon
and keeps only the second field, so for an input with two colons the port
differs from the text after the first colon that the claim prescribes. -/
theorem determine_site_type_proxy_port_cex :
    determine_site_type ⟨[], some "127.0.0.1:8080:9090", none, none⟩ =
      Except.ok ("proxy", "", [("host", "127.0.0.1"), ("port", "8080")]) ∧
    claimProxyPort "127.0.0.1:8080:9090" = "8080:9090" ∧
    ("8080" : String) ≠ "8080:9090" :=
  ⟨rfl, rfl, by decide⟩

/-- C8 amended: with no resolved site type and a proxy option present, the
classifier trims the value, errors when it is empty, splits it on colons
and uses the first field as host and the second field as port (text after a
second colon is discarded), with port "80" when there is no colon; in
particular the value 127.0.0.1 yields host 127.0.0.1 and port 80. -/
theorem determine_site_type_proxy_amended :
    (∀ (opts : Opts) (s : String) (al sub : Option String),
      detSitePar opts = Except.ok (none, none) →
      determine_site_type ⟨opts, some s, al, sub⟩ =
        (let proxyinfo := pyStrip s
         if pyEmpty proxyinfo then
           Except.error "Please provide proxy server host information"
         else
           let parts := pySplit proxyinfo ':'
           Except.ok ("proxy", "",
             [("host", pyStrip (parts.headD "")),
              ("port", if parts.length < 2 then "80" else pyStrip (parts.getD 1 ""))]))) ∧
    determine_site_type ⟨[], some "127.0.0.1", none, none⟩ =
      Except.ok ("proxy", "", [("host", "127.0.0.1"), ("port", "80")]) := by
  refine ⟨?_, rfl⟩
  intro opts s al sub h
  simp [determine_site_type, h]

/-- Witness for the amended C8: the empty input ran through the general
case reproduces the port-80 default of the claim. -/
theorem determine_site_type_proxy_amended_witness :
    determine_site_type ⟨[], some " 10.0.0.5 ", none, none⟩ =
      Except.ok ("proxy", "", [("host", "10.0.0.5"), ("port", "80")]) :=
  (determine_site_type_proxy_amended.1 [] " 10.0.0.5 " none none (by rfl)).trans
    (by rfl)

/-! Database name derivation (site_functions.py). -/
/-- Counterexample to C7: the database name derivation appends a fresh
random sample on every call, so two derivations for the same domain agree
only when the random samples agree; with distinct samples the candidates
differ. -/
theorem derive_db_name_not_deterministic_cex :
    derive_db_name "Example.COM" "AAAAAAAA" = "Example_COM_AAAAAAAA" ∧
    derive_db_name "Example.COM" "BBBBBBBB" = "Example_COM_BBBBBBBB" ∧
    derive_db_name "Example.COM" "AAAAAAAA" ≠ derive_db_name "Example.COM" "BBBBBBBB" :=
  ⟨rfl, rfl, by decide⟩

/-- C7 amended: the name candidate is the truncated processed domain plus
an underscore plus the fresh random sample, so it is deterministic only in
the pair of domain and sample; a resolution whose existence check is false
returns the candidate pair unchanged; the collision mutation happens at
most once; and on a collision the resolved name is the candidate extended
by a fresh underscore-sample suffix, which differs from the candidate. -/
theorem db_name_resolution_amended :
    (∀ (domain s : String),
      derive_db_name domain s =
        pyTake (pyReplace (pyReplace domain "-" "_") "." "_") 32 ++ "_" ++ s) ∧
    (∀ (dbExists : String → Bool) (n u s8 s4 : String),
      dbExists n = false →
      create_database_and_user dbExists ⟨true, true, true, true⟩ n u s8 s4 =
        Except.ok (n, u)) ∧
    (∀ (dbExists : String → Bool) (orc : DbOracle) (n u s8 s4 p q : String),
      create_database_and_user dbExists orc n u s8 s4 = Except.ok (p, q) →
      (p = n ∧ q = u) ∨
      (p = generate_database_name n 32 s8 ∧
       q = generate_database_username (generate_database_name n 32 s8) 12 s4)) ∧
    (∀ (dbExists : String → Bool) (n u s8 s4 : String),
      dbExists n = true → n.length ≤ 32 →
      create_database_and_user dbExists ⟨true, true, true, true⟩ n u s8 s4 =
        Except.ok (generate_database_name n 32 s8,
          generate_database_username (generate_database_name n 32 s8) 12 s4) ∧
      generate_database_name n 32 s8 ≠ n) := by
  refine ⟨fun domain s => rfl, ?_, ?_, ?_⟩
  · intro dbExists n u s8 s4 h
    simp [create_database_and_user, h]
  · intro dbExists orc n u s8 s4 p q h
    obtain ⟨c1, c2, c3, c4⟩ := orc
    cases c1 <;> cases c2 <;> cases c3 <;> cases c4 <;>
      simp [create_database_and_user] at h
    by_cases he : dbExists n
    · right
      simp only [he, if_true] at h
      injection h with h1 h2
      exact ⟨h1.symm, h2.symm⟩
    · left
      simp only [he, if_false, Bool.false_eq_true] at h
      injection h with h1 h2
      exact ⟨h1.symm, h2.symm⟩
  · intro dbExists n u s8 s4 h hlen
    have hmain : create_database_and_user dbExists ⟨true, true, true, true⟩ n u s8 s4 =
        Except.ok (generate_database_name n 32 s8,
          generate_database_username (generate_database_name n 32 s8) 12 s4) := by
      unfold create_database_and_user
      rw [h]
      rfl
    refine ⟨hmain, ?_⟩
    intro heq
    have hd := congrArg String.data heq
    simp only [generate_database_name, pyTake, String.data_append] at hd
    have hlen2 := congrArg List.length hd
    simp only [List.length_append, List.length_take, List.length_singleton] at hlen2
    have hlen3 : n.data.length ≤ 32 := hlen
    rw [min_eq_right hlen3] at hlen2
    omega

/-- Witness for the amended C7: a concrete resolution without collision
returns the candidate unchanged, and one with a collision appends the
sample once. -/
theorem db_name_resolution_amended_witness :
    derive_db_name "Example.COM" "AAAAAAAA" =
      pyTake (pyReplace (pyReplace "Example.COM" "-" "_") "." "_") 32 ++ "_" ++ "AAAAAAAA" ∧
    create_database_and_user (fun _ => false) ⟨true, true, true, true⟩
      "example_com_x" "examplecomab" "CCCCCCCC" "dddd" =
      Except.ok ("example_com_x", "examplecomab") ∧
    ((("example_com_x" : String) = "example_com_x" ∧
        ("examplecomab" : String) = "examplecomab") ∨
      (("example_com_x" : String) = generate_database_name "example_com_x" 32 "CCCCCCCC" ∧
        ("examplecomab" : String) =
          generate_database_username (generate_database_name "example_com_x" 32 "CCCCCCCC") 12 "dddd")) ∧
    create_database_and_user (fun _ => true) ⟨true, true, true, true⟩
      "example_com_x" "examplecomab" "CCCCCCCC" "dddd" =
      Except.ok ("example_com_x_CCCCCCCC", "example_com_dddd") ∧
    generate_database_name "example_com_x" 32 "CCCCCCCC" ≠ "example_com_x" :=
  ⟨db_name_resolution_amended.1 "Example.COM" "AAAAAAAA",
   db_name_resolution_amended.2.1 (fun _ => false) "example_com_x" "examplecomab"
     "CCCCCCCC" "dddd" rfl,
   db_name_resolution_amended.2.2.1 (fun _ => false) ⟨true, true, true, true⟩
     "example_com_x" "examplecomab" "CCCCCCCC" "dddd" "example_com_x" "examplecomab"
     (db_name_resolution_amended.2.1 (fun _ => false) "example_com_x" "examplecomab"
       "CCCCCCCC" "dddd" rfl),
   ((db_name_resolution_amended.2.2.2 (fun _ => true) "example_com_x" "examplecomab"
       "CCCCCCCC" "dddd" rfl (by decide)).1).trans (by rfl),
   (db_name_resolution_amended.2.2.2 (fun _ => true) "example_com_x" "examplecomab"
       "CCCCCCCC" "dddd" rfl (by decide)).2⟩

/-! The lock helpers of site_autoupdate.py. -/
/-- C6: on a conflict with readable metadata, the lock is treated as stale
exactly when its age exceeds max_age or its owner process no longer
exists; a stale lock is removed and the create retried exactly once, with
the retry conflict reported as false; an expired lock of a dead owner is
reclaimed and a fresh lock of a live owner is not. -/
theorem acquire_lock_staleness :
    ∀ (env : LockEnv) (max_age_sec : Int),
      env.fileExists = true → env.otherCreateError = false →
      env.pid ≠ 0 → env.ts ≠ 0 →
      ((env.now - env.ts > max_age_sec ∨ env.pidAlive env.pid = false) →
        acquire_lock env max_age_sec = ⟨env.retryCreateOk, true, true⟩) ∧
      (¬(env.now - env.ts > max_age_sec ∨ env.pidAlive env.pid = false) →
        acquire_lock env max_age_sec = ⟨false, false, false⟩) := by
  intro env max_age_sec hf ho hpid hts
  constructor
  · intro hstale
    have hcond : (env.ts ≠ 0 ∧ env.now - env.ts > max_age_sec) ∨
        (env.pid ≠ 0 ∧ env.pidAlive env.pid = false) := by
      rcases hstale with h | h
      · exact Or.inl ⟨hts, h⟩
      · exact Or.inr ⟨hpid, h⟩
    simp only [acquire_lock, hf, ho]
    rw [if_neg (by simp), if_neg (by simp), if_pos hcond]
    cases hr : env.retryCreateOk <;> simp [hr]
  · intro hfresh
    have hcond : ¬((env.ts ≠ 0 ∧ env.now - env.ts > max_age_sec) ∨
        (env.pid ≠ 0 ∧ env.pidAlive env.pid = false)) := by
      push_neg at hfresh ⊢
      exact ⟨fun _ => hfresh.1, fun _ => hfresh.2⟩
    simp only [acquire_lock, hf, ho]
    rw [if_neg (by simp), if_neg (by simp), if_neg hcond]

/-- Witness for C6: a lock aged beyond max_age with a dead owner is
reclaimed, and a fresh lock with a live owner is not. -/
theorem acquire_lock_staleness_witness :
    acquire_lock ⟨true, false, 4242, 100, 1000, fun _ => false, true⟩ 600 =
      ⟨true, true, true⟩ ∧
    acquire_lock ⟨true, false, 4242, 900, 1000, fun _ => true, true⟩ 600 =
      ⟨false, false, false⟩ :=
  ⟨(acquire_lock_staleness ⟨true, false, 4242, 100, 1000, fun _ => false, true⟩ 600
      rfl rfl (by decide) (by decide)).1 (Or.inr rfl),
   (acquire_lock_staleness ⟨true, false, 4242, 900, 1000, fun _ => true, true⟩ 600
      rfl rfl (by decide) (by decide)).2 (by simp)⟩

/-! The provisioning pipeline of site_create.py default, together with the
cleanup helpers of site_functions.py. The filesystem, the MySQL server and
the site registry are an abstract state; only the resources the tracked
claims talk about are represented. -/
/-- C10: the webroot removal compensation returns false and removes
nothing for every path that strips to one of the four shared web root
spellings, and likewise when the stripped path is not an existing
directory, so compensation can never delete the shared web root. -/
theorem deleteWebRoot_guard :
    ∀ (st : SysState) (w : String),
      ((pyStrip w = "/var/www/" ∨ pyStrip w = "/var/www" ∨
        pyStrip w = "/var/www/.." ∨ pyStrip w = "/var/www/.") →
        deleteWebRoot st w = (st, false)) ∧
      (pyStrip w ∉ st.dirs → deleteWebRoot st w = (st, false)) := by
  intro st w
  constructor
  · intro h
    simp only [deleteWebRoot]
    rw [if_pos h]
  · intro h
    simp only [deleteWebRoot]
    by_cases hb : pyStrip w = "/var/www/" ∨ pyStrip w = "/var/www" ∨
        pyStrip w = "/var/www/.." ∨ pyStrip w = "/var/www/."
    · rw [if_pos hb]
    · rw [if_neg hb, if_neg (by simp [h])]

/-- Witness for C10: the shared web root with surrounding whitespace is
refused, and a missing directory is reported as false. -/
theorem deleteWebRoot_guard_witness :
    deleteWebRoot ⟨[], ["/var/www/kept.com"], [], [], [], []⟩ " /var/www/ " =
      (⟨[], ["/var/www/kept.com"], [], [], [], []⟩, false) ∧
    deleteWebRoot ⟨[], ["/var/www/kept.com"], [], [], [], []⟩ "/var/www/gone.com" =
      (⟨[], ["/var/www/kept.com"], [], [], [], []⟩, false) :=
  ⟨(deleteWebRoot_guard ⟨[], ["/var/www/kept.com"], [], [], [], []⟩ " /var/www/ ").1
     (by decide),
   (deleteWebRoot_guard ⟨[], ["/var/www/kept.com"], [], [], [], []⟩ "/var/www/gone.com").2
     (by decide)⟩

/-- Counterexample to C3: a subsite creation run (parent wpsubdir on php
8.1, every step succeeding) executes the php-fpm pool configuration step
and leaves a configured pool, while the claim says the step never runs for
subsite types. -/
theorem subsite_pipeline_runs_phpfpm_cex :
    determine_site_type ⟨[], none, none, some "parent.com"⟩ =
      Except.ok ("subsite", "", [("subsiteof_name", "parent.com")]) ∧
    build_data "subsite" [("subsiteof_name", "parent.com")] "sub.parent.com"
      "/var/www/sub.parent.com" demoGetSite none none = Except.ok cexSubsiteData ∧
    StepEv.phpFpmPool ∈ (run_site_create cexSubsiteData allOk [] emptySys).trace ∧
    (run_site_create cexSubsiteData allOk [] emptySys).sys.pools = ["sub-parent-com"] ∧
    (run_site_create cexSubsiteData allOk [] emptySys).outcome = RunOutcome.success := by
  refine ⟨rfl, rfl, ?_, rfl, rfl⟩
  show StepEv.phpFpmPool ∈ [StepEv.vhostWebroot, StepEv.registryAdd, StepEv.nginxReload,
    StepEv.phpFpmPool, StepEv.nginxReload, StepEv.permissions]
  simp

theorem db_cleanup_and_fatal_trace (d : SiteData) (st : SysState) (tr : List StepEv) :
    (db_cleanup_and_fatal d st tr).trace = tr := by
  simp only [db_cleanup_and_fatal]
  split
  · split <;> rfl
  · rfl

theorem phase_permissions_trace (d : SiteData) (orc : StepOracle) (st : SysState)
    (tr : List StepEv) :
    (phase_permissions d orc st tr).trace = tr ++ [StepEv.permissions] := by
  simp only [phase_permissions]
  split
  · rfl
  · exact db_cleanup_and_fatal_trace d st (tr ++ [StepEv.permissions])

theorem phase_reload_final_trace (d : SiteData) (orc : StepOracle) (st : SysState)
    (tr : List StepEv) :
    ∃ suf, (phase_reload_final d orc st tr).trace = tr ++ suf ∧
      ∀ e ∈ suf, e = StepEv.nginxReload ∨ e = StepEv.permissions := by
  simp only [phase_reload_final]
  split
  · refine ⟨[StepEv.nginxReload, StepEv.permissions], ?_, ?_⟩
    · rw [phase_permissions_trace]
      simp
    · intro e he
      simpa using he
  · refine ⟨[StepEv.nginxReload], db_cleanup_and_fatal_trace .., ?_⟩
    intro e he
    simp at he
    exact Or.inl he

theorem phase_phpfpm_trace (d : SiteData) (orc : StepOracle) (st : SysState)
    (tr : List StepEv) :
    ∃ suf, (phase_phpfpm d orc st tr).trace = tr ++ suf ∧
      (∀ e ∈ suf,
        e = StepEv.nginxReload ∨ e = StepEv.phpFpmPool ∨ e = StepEv.permissions) ∧
      (d.phpVer = none → ∀ e ∈ suf, e ≠ StepEv.phpFpmPool) := by
  cases hpv : d.phpVer with
  | none =>
    simp only [phase_phpfpm, hpv]
    obtain ⟨suf, h1, h2⟩ := phase_reload_final_trace d orc st tr
    refine ⟨suf, h1, ?_, ?_⟩
    · intro e he
      rcases h2 e he with h | h
      · exact Or.inl h
      · exact Or.inr (Or.inr h)
    · intro _ e he
      rcases h2 e he with h | h <;> simp [h]
  | some pv =>
    simp only [phase_phpfpm, hpv]
    split
    · refine ⟨[], by rw [db_cleanup_and_fatal_trace, List.append_nil], by simp,
        fun h => Option.noConfusion h⟩
    · split
      · obtain ⟨suf, h1, h2⟩ :=
          phase_reload_final_trace d orc { st with pools := d.poolName :: st.pools }
            (tr ++ [StepEv.phpFpmPool])
        refine ⟨StepEv.phpFpmPool :: suf, ?_, ?_, fun h => Option.noConfusion h⟩
        · rw [h1, List.append_assoc]
          rfl
        · intro e he
          rcases List.mem_cons.mp he with h | h
          · exact Or.inr (Or.inl h)
          · rcases h2 e h with h3 | h3
            · exact Or.inl h3
            · exact Or.inr (Or.inr h3)
      · refine ⟨[StepEv.phpFpmPool], db_cleanup_and_fatal_trace .., ?_,
          fun h => Option.noConfusion h⟩
        intro e he
        simp at he
        exact Or.inr (Or.inl he)

theorem phase_wp_skip (d : SiteData) (orc : StepOracle) (rnd : List String)
    (st : SysState) (tr : List StepEv) (h : d.wp = false) :
    phase_wp d orc rnd st tr = phase_phpfpm d orc st tr := by
  simp [phase_wp, h]

theorem phase_db_skip (d : SiteData) (orc : StepOracle) (rnd : List String)
    (st : SysState) (tr : List StepEv) (h : d.hasDbKey = false) :
    phase_db d orc rnd st tr = phase_wp d orc rnd st tr := by
  simp [phase_db, h]

theorem build_data_proxy (extra : List (String × String)) (dom webroot : String)
    (getSite : String → Option SiteInfoRec) (pargsPhp configPhp : Option String) :
    build_data "proxy" extra dom webroot getSite pargsPhp configPhp =
      Except.ok (finalize_data "proxy" { empty_data dom webroot with isProxy := true }
        dom webroot pargsPhp configPhp) := rfl

theorem build_data_alias (extra : List (String × String)) (dom webroot : String)
    (getSite : String → Option SiteInfoRec) (pargsPhp configPhp : Option String) :
    build_data "alias" extra dom webroot getSite pargsPhp configPhp =
      Except.ok (finalize_data "alias" { empty_data dom webroot with isAlias := true }
        dom webroot pargsPhp configPhp) := rfl

theorem build_data_subsite_noparent (extra : List (String × String))
    (dom webroot : String) (getSite : String → Option SiteInfoRec)
    (pargsPhp configPhp : Option String)
    (hgs : getSite ((extra.lookup "subsiteof_name").getD "") = none) :
    build_data "subsite" extra dom webroot getSite pargsPhp configPhp =
      Except.error
        ("Parent site " ++ (extra.lookup "subsiteof_name").getD "" ++
          " does not exist") := by
  simp only [build_data, hgs, String.reduceEq, reduceIte]

theorem build_data_subsite_ok (extra : List (String × String)) (dom webroot : String)
    (getSite : String → Option SiteInfoRec) (pargsPhp configPhp : Option String)
    (parent : SiteInfoRec)
    (hgs : getSite ((extra.lookup "subsiteof_name").getD "") = some parent)
    (hen : parent.isEnabled = true)
    (hty : parent.siteType = "wpsubdomain" ∨ parent.siteType = "wpsubdir") :
    build_data "subsite" extra dom webroot getSite pargsPhp configPhp =
      Except.ok (finalize_data "subsite"
        { empty_data dom webroot with
            wp := parent.siteType = "wp",
            woPhp := some (pyReplace ("php" ++ parent.phpVersion) "." ""),
            isSubsite := true }
        dom webroot pargsPhp configPhp) := by
  simp only [build_data, hgs, String.reduceEq, reduceIte]
  rw [if_neg (by simp [hen]), if_neg (not_not_intro hty)]

theorem finalize_data_special_fields (stype : String) (d0 : SiteData)
    (dom webroot : String) (configPhp : Option String)
    (h1 : ¬(stype = "html" ∨ stype = "php"))
    (h2 : ¬(stype = "mysql" ∨ stype = "wp" ∨ stype = "wpsubdir" ∨
      stype = "wpsubdomain")) :
    (finalize_data stype d0 dom webroot none configPhp).hasDbKey = d0.hasDbKey ∧
    (finalize_data stype d0 dom webroot none configPhp).wp = d0.wp ∧
    (finalize_data stype d0 dom webroot none configPhp).isProxy = d0.isProxy ∧
    (finalize_data stype d0 dom webroot none configPhp).isAlias = d0.isAlias ∧
    (finalize_data stype d0 dom webroot none configPhp).isSubsite = d0.isSubsite := by
  simp only [finalize_data, Option.isSome_none, if_neg h1, if_neg h2]
  cases hwo : resolve_wo_php none configPhp d0.woPhp <;> simp [hwo]

/-- C3 amended: the proxy, alias and subsite data dictionaries carry
neither the database key nor the WordPress flag, so their runs never
execute the database provisioning or the application install step; the
php-fpm pool step however is not skipped: it is a no-op only when no PHP
version was resolved, and with a resolved version and complete pool data
an otherwise successful run does configure the pool. -/
theorem special_types_pipeline_amended :
    (∀ (stype : String) (extra : List (String × String)) (dom webroot : String)
        (getSite : String → Option SiteInfoRec) (configPhp : Option String)
        (d : SiteData),
      stype = "proxy" ∨ stype = "alias" ∨ stype = "subsite" →
      build_data stype extra dom webroot getSite none configPhp = Except.ok d →
      d.hasDbKey = false ∧ d.wp = false ∧
        (d.isProxy = true ∨ d.isAlias = true ∨ d.isSubsite = true)) ∧
    (∀ (d : SiteData) (orc : StepOracle) (rnd : List String) (st0 : SysState),
      d.hasDbKey = false → d.wp = false →
      StepEv.dbProvision ∉ (run_site_create d orc rnd st0).trace ∧
      StepEv.wpInstall ∉ (run_site_create d orc rnd st0).trace ∧
      (d.phpVer = none →
        StepEv.phpFpmPool ∉ (run_site_create d orc rnd st0).trace)) ∧
    (∀ (d : SiteData) (rnd : List String) (st0 : SysState) (pv : String),
      d.hasDbKey = false → d.wp = false → d.phpVer = some pv →
      d.poolName ≠ "" → pv ≠ "" →
      ((d.woPhp.bind fun k =>
        (VERSION_MAP.find? fun kv => kv.1 = k).map Prod.snd).getD "") ≠ "" →
      d.webroot ≠ "" →
      StepEv.phpFpmPool ∈ (run_site_create d allOk rnd st0).trace) := by
  refine ⟨?_, ?_, ?_⟩
  · intro stype extra dom webroot getSite configPhp d hst hbuild
    have hfin :
        ∀ d0 : SiteData, d = finalize_data stype d0 dom webroot none configPhp →
        d0.hasDbKey = false → d0.wp = false →
        (d0.isProxy = true ∨ d0.isAlias = true ∨ d0.isSubsite = true) →
        d.hasDbKey = false ∧ d.wp = false ∧
          (d.isProxy = true ∨ d.isAlias = true ∨ d.isSubsite = true) := by
      intro d0 hd hk hw hsp
      have h1 : ¬(stype = "html" ∨ stype = "php") := by
        rcases hst with h | h | h <;> subst h <;> decide
      have h2 : ¬(stype = "mysql" ∨ stype = "wp" ∨ stype = "wpsubdir" ∨
          stype = "wpsubdomain") := by
        rcases hst with h | h | h <;> subst h <;> decide
      obtain ⟨f1, f2, f3, f4, f5⟩ :=
        finalize_data_special_fields stype d0 dom webroot configPhp h1 h2
      subst hd
      rw [f1, f2, f3, f4, f5]
      exact ⟨hk, hw, hsp⟩
    rcases hst with h | h | h
    · subst h
      rw [build_data_proxy] at hbuild
      exact hfin _ (Except.ok.inj hbuild).symm rfl rfl (Or.inl rfl)
    · subst h
      rw [build_data_alias] at hbuild
      exact hfin _ (Except.ok.inj hbuild).symm rfl rfl (Or.inr (Or.inl rfl))
    · subst h
      rcases hgs : getSite ((extra.lookup "subsiteof_name").getD "") with _ | parent
      · rw [build_data_subsite_noparent extra dom webroot getSite none configPhp hgs]
          at hbuild
        exact absurd hbuild (by simp)
      · by_cases hen : parent.isEnabled = true
        · by_cases hty : parent.siteType = "wpsubdomain" ∨ parent.siteType = "wpsubdir"
          · rw [build_data_subsite_ok extra dom webroot getSite none configPhp parent
              hgs hen hty] at hbuild
            have hwp : decide (parent.siteType = "wp") = false := by
              rcases hty with h | h <;> rw [h] <;> decide
            exact hfin _ (Except.ok.inj hbuild).symm rfl hwp (Or.inr (Or.inr rfl))
          · simp only [build_data, hgs, String.reduceEq, reduceIte] at hbuild
            rw [if_neg (by simp [hen]), if_pos hty] at hbuild
            exact absurd hbuild (by simp)
        · simp only [build_data, hgs, String.reduceEq, reduceIte] at hbuild
          rw [if_pos hen] at hbuild
          exact absurd hbuild (by simp)
  · intro d orc rnd st0 hdb hwp
    have hskip : ∀ (st : SysState) (tr : List StepEv),
        phase_db d orc rnd st tr = phase_phpfpm d orc st tr := by
      intro st tr
      rw [phase_db_skip _ _ _ _ _ hdb, phase_wp_skip _ _ _ _ _ hwp]
    have hlim : ∀ (st : SysState) (tr : List StepEv),
        StepEv.dbProvision ∉ tr → StepEv.wpInstall ∉ tr →
        (d.phpVer = none → StepEv.phpFpmPool ∉ tr) →
        StepEv.dbProvision ∉ (phase_phpfpm d orc st tr).trace ∧
        StepEv.wpInstall ∉ (phase_phpfpm d orc st tr).trace ∧
        (d.phpVer = none → StepEv.phpFpmPool ∉ (phase_phpfpm d orc st tr).trace) := by
      intro st tr htr1 htr2 htr3
      obtain ⟨suf, h1, h2, h3⟩ := phase_phpfpm_trace d orc st tr
      rw [h1]
      refine ⟨?_, ?_, ?_⟩
      · intro hmem
        rcases List.mem_append.mp hmem with h | h
        · exact htr1 h
        · rcases h2 _ h with h | h | h <;> exact absurd h (by decide)
      · intro hmem
        rcases List.mem_append.mp hmem with h | h
        · exact htr2 h
        · rcases h2 _ h with h | h | h <;> exact absurd h (by decide)
      · intro hnone hmem
        rcases List.mem_append.mp hmem with h | h
        · exact htr3 hnone h
        · exact h3 hnone _ h rfl
    simp only [run_site_create]
    split
    · split
      · split
        · rw [hskip]
          exact hlim _ _ (by decide) (by decide) (fun _ => by decide)
        · exact ⟨by simp, by simp, fun _ => by simp⟩
      · rw [hskip]
        exact hlim _ _ (by decide) (by decide) (fun _ => by decide)
    · exact ⟨by simp, by simp, fun _ => by simp⟩
  · intro d rnd st0 pv hdb hwp hpv hpool hpv2 hver hwr
    have hskip : ∀ (st : SysState) (tr : List StepEv),
        phase_db d allOk rnd st tr = phase_phpfpm d allOk st tr := by
      intro st tr
      rw [phase_db_skip _ _ _ _ _ hdb, phase_wp_skip _ _ _ _ _ hwp]
    have hmem : ∀ (st : SysState) (tr : List StepEv),
        StepEv.phpFpmPool ∈ (phase_phpfpm d allOk st tr).trace := by
      intro st tr
      simp only [phase_phpfpm, hpv]
      rw [if_neg (by simp [hpool, hpv2, hver, hwr]), if_pos (by rfl)]
      obtain ⟨suf, h1, h2⟩ :=
        phase_reload_final_trace d allOk { st with pools := d.poolName :: st.pools }
          (tr ++ [StepEv.phpFpmPool])
      rw [h1]
      simp
    simp only [run_site_create]
    split
    · split
      · split
        · rw [hskip]
          exact hmem _ _
        · rename_i hrel
          exact absurd rfl hrel
      · rw [hskip]
        exact hmem _ _
    · rename_i hsd
      exact absurd rfl hsd

/-- Witness for the amended C3: the concrete proxy data dictionary has no
database key and no WordPress flag; a proxy run with no resolved PHP
version never reaches the pool step; and the subsite run of the
counterexample does configure the pool. -/
theorem special_types_pipeline_amended_witness :
    (∀ d : SiteData,
      build_data "proxy" [] "p.example.com" "/var/www/p.example.com"
        (fun _ => none) none none = Except.ok d →
      d.hasDbKey = false ∧ d.wp = false ∧
        (d.isProxy = true ∨ d.isAlias = true ∨ d.isSubsite = true)) ∧
    StepEv.dbProvision ∉ (run_site_create cexSubsiteData allOk [] emptySys).trace ∧
    StepEv.wpInstall ∉ (run_site_create cexSubsiteData allOk [] emptySys).trace ∧
    StepEv.phpFpmPool ∈ (run_site_create cexSubsiteData allOk [] emptySys).trace :=
  ⟨fun d hd =>
    special_types_pipeline_amended.1 "proxy" [] "p.example.com"
      "/var/www/p.example.com" (fun _ => none) none d (Or.inl rfl) hd,
   (special_types_pipeline_amended.2.1 cexSubsiteData allOk [] emptySys rfl rfl).1,
   (special_types_pipeline_amended.2.1 cexSubsiteData allOk [] emptySys rfl rfl).2.1,
   special_types_pipeline_amended.2.2 cexSubsiteData [] emptySys "81" rfl rfl rfl
     (by decide) (by decide) (by decide) (by decide)⟩

theorem setupdatabase_ok (d : SiteData) (rnd : List String)
    (c dir dbs0 us0 reg p : List String)
    (hcol : dbs0.contains (derive_db_name d.siteName (rnd.getD 1 "")) = false) :
    setupdatabase d ⟨true, true, true, true⟩ rnd ⟨c, dir, dbs0, us0, reg, p⟩ =
      Except.ok
        ({ d with dbName := derive_db_name d.siteName (rnd.getD 1 ""),
                  dbUser := derive_db_user d.siteName (rnd.getD 2 ""),
                  dbPass := rnd.getD 0 "", dbHost := "localhost",
                  grantHost := "localhost" },
         ⟨c, dir, derive_db_name d.siteName (rnd.getD 1 "") :: dbs0,
          derive_db_user d.siteName (rnd.getD 2 "") :: us0, reg, p⟩) := by
  have hcol2 : dbs0.contains (generate_database_name
      (process_domain_for_database d.siteName).1 32 (rnd.getD 1 "")) = false := hcol
  simp only [setupdatabase, hcol2]
  rfl

theorem db_cleanup_and_fatal_full (d : SiteData) (tr : List StepEv)
    (c0 dir0 dbs0 us0 reg0 p0 : List String)
    (hname : d.siteName ≠ "") (hweb : d.webroot ≠ "")
    (hstrip : pyStrip d.webroot = d.webroot)
    (hban : ¬(d.webroot = "/var/www/" ∨ d.webroot = "/var/www" ∨
      d.webroot = "/var/www/.." ∨ d.webroot = "/var/www/."))
    (hdbk : d.hasDbKey = true)
    (hdbn : d.dbName ≠ "") (hdbu : d.dbUser ≠ "") (hdbu2 : d.dbUser ≠ "root")
    (hgh : d.grantHost ≠ "")
    (hn2 : d.siteName ∉ c0) :
    db_cleanup_and_fatal d
      ⟨d.siteName :: c0, d.webroot :: dir0, d.dbName :: dbs0,
       d.dbUser :: us0, d.siteName :: reg0, p0⟩ tr =
      ⟨⟨c0, dir0, dbs0, us0, reg0, p0⟩, d, tr, RunOutcome.fatal logMsg⟩ := by
  have h1 : doCleanupAction
      ⟨d.siteName :: c0, d.webroot :: dir0, d.dbName :: dbs0,
       d.dbUser :: us0, d.siteName :: reg0, p0⟩ d.siteName d.webroot "" "" "" =
      Except.ok ⟨c0, dir0, d.dbName :: dbs0, d.dbUser :: us0, d.siteName :: reg0, p0⟩ := by
    simp only [doCleanupAction, removeNginxConf, deleteWebRoot]
    rw [if_pos hname,
        if_pos (show (d.siteName :: c0).contains d.siteName = true by simp),
        List.erase_cons_head,
        if_pos hweb, hstrip, if_neg hban,
        if_pos (show (d.webroot :: dir0).contains d.webroot = true by simp),
        List.erase_cons_head,
        if_neg (show ¬(("" : String) ≠ "") by simp)]
  have h2 : doCleanupAction
      ⟨c0, dir0, d.dbName :: dbs0, d.dbUser :: us0, d.siteName :: reg0, p0⟩
      d.siteName "" d.dbName d.dbUser d.grantHost =
      Except.ok ⟨c0, dir0, dbs0, us0, d.siteName :: reg0, p0⟩ := by
    simp only [doCleanupAction, removeNginxConf, deleteDB]
    rw [if_pos hname,
        if_neg (show ¬(c0.contains d.siteName = true) by simp [hn2]),
        if_neg (show ¬(("" : String) ≠ "") by simp),
        if_pos hdbn, if_neg hdbu, if_neg hgh,
        if_pos (show (d.dbName :: dbs0).contains d.dbName = true by simp),
        List.erase_cons_head,
        if_pos hdbu2, List.erase_cons_head]
  simp only [db_cleanup_and_fatal, cleanupOr, h1, h2, hdbk, if_true]
  simp [deleteSiteInfo, List.erase_cons_head]

theorem generate_database_name_ne_empty (x : String) (n : Nat) (s : String) :
    generate_database_name x n s ≠ "" := by
  intro h
  have hd := congrArg (fun t => t.data.length) h
  simp only [generate_database_name, pyTake, String.data_append] at hd
  simp [List.length_append] at hd

theorem mysql_rollback_main (d : SiteData) (orc : StepOracle) (rnd : List String)
    (pv : String) (c0 dir0 dbs0 us0 reg0 p0 : List String)
    (hpx : d.isProxy = false) (hal : d.isAlias = false) (hsub : d.isSubsite = false)
    (hwp : d.wp = false) (hdbk : d.hasDbKey = true)
    (hname : d.siteName ≠ "") (hweb : d.webroot ≠ "")
    (hstrip : pyStrip d.webroot = d.webroot)
    (hban : ¬(d.webroot = "/var/www/" ∨ d.webroot = "/var/www" ∨
      d.webroot = "/var/www/.." ∨ d.webroot = "/var/www/."))
    (hpv : d.phpVer = some pv) (hpvne : pv ≠ "") (hpool : d.poolName ≠ "")
    (hver : ((d.woPhp.bind fun k =>
      (VERSION_MAP.find? fun kv => kv.1 = k).map Prod.snd).getD "") ≠ "")
    (ho1 : orc.setupdomainOk = true) (hodb : orc.db = ⟨true, true, true, true⟩)
    (ho4 : orc.wpConfigOk = true) (ho6 : orc.phpFpmOk = false)
    (hn1 : d.siteName ∉ c0)
    (hcol : dbs0.contains (derive_db_name d.siteName (rnd.getD 1 "")) = false)
    (hune : derive_db_user d.siteName (rnd.getD 2 "") ≠ "")
    (hurt : derive_db_user d.siteName (rnd.getD 2 "") ≠ "root") :
    run_site_create d orc rnd ⟨c0, dir0, dbs0, us0, reg0, p0⟩ =
      ⟨⟨c0, dir0, dbs0, us0, reg0, p0⟩,
       { d with dbName := derive_db_name d.siteName (rnd.getD 1 ""),
                dbUser := derive_db_user d.siteName (rnd.getD 2 ""),
                dbPass := rnd.getD 0 "", dbHost := "localhost",
                grantHost := "localhost" },
       [StepEv.vhostWebroot, StepEv.registryAdd, StepEv.dbProvision,
        StepEv.phpFpmPool],
       RunOutcome.fatal logMsg⟩ := by
  simp only [run_site_create, addNewSite]
  rw [if_pos ho1, if_neg (by simp [hpx, hal, hsub])]
  simp only [phase_db]
  rw [if_pos ⟨hdbk, by simp [hwp]⟩, hodb,
    setupdatabase_ok d rnd (d.siteName :: c0) (d.webroot :: dir0) dbs0 us0
      (d.siteName :: reg0) p0 hcol]
  simp only [phase_wp, phase_phpfpm, hwp, hpv, Bool.false_eq_true, reduceIte]
  rw [if_pos ho4]
  rw [if_neg (by push_neg; exact ⟨hpool, hpvne, hver, hweb⟩),
    if_neg (by simp [ho6])]
  exact db_cleanup_and_fatal_full
    { siteName := d.siteName, webroot := d.webroot, wp := false,
      hasDbKey := d.hasDbKey,
      dbName := derive_db_name d.siteName (rnd.getD 1 ""),
      dbUser := derive_db_user d.siteName (rnd.getD 2 ""),
      dbPass := rnd.getD 0 "", dbHost := "localhost", grantHost := "localhost",
      poolName := d.poolName, woPhp := d.woPhp, phpVer := some pv,
      phpFpmUser := d.phpFpmUser, isProxy := d.isProxy, isAlias := d.isAlias,
      isSubsite := d.isSubsite }
    _ c0 dir0 dbs0 us0 reg0 p0 hname hweb hstrip hban hdbk
    (generate_database_name_ne_empty _ _ _) hune hurt
    (show ("localhost" : String) ≠ "" by decide) hn1

/-- C2: for a mysql-type site (database key present, not WordPress, not a
special type) whose vhost, webroot and database steps succeeded, a failure
of the php-fpm pool step rolls back everything: the final system state
equals the initial one (vhost gone, webroot gone, database and user
dropped, registry entry deleted, no pool recorded) and the run ends with
the terminal non-retryable log error; the executed steps were exactly
vhost/webroot, registry, database and the failing pool step. -/
theorem mysql_phpfpm_failure_rollback :
    ∀ (d : SiteData) (orc : StepOracle) (rnd : List String) (st0 : SysState)
      (pv : String),
      d.isProxy = false → d.isAlias = false → d.isSubsite = false →
      d.wp = false → d.hasDbKey = true →
      d.siteName ≠ "" → d.webroot ≠ "" →
      pyStrip d.webroot = d.webroot →
      ¬(d.webroot = "/var/www/" ∨ d.webroot = "/var/www" ∨
        d.webroot = "/var/www/.." ∨ d.webroot = "/var/www/.") →
      d.phpVer = some pv → pv ≠ "" → d.poolName ≠ "" →
      ((d.woPhp.bind fun k =>
        (VERSION_MAP.find? fun kv => kv.1 = k).map Prod.snd).getD "") ≠ "" →
      orc.setupdomainOk = true → orc.db = ⟨true, true, true, true⟩ →
      orc.wpConfigOk = true → orc.phpFpmOk = false →
      d.siteName ∉ st0.nginxConfs → d.webroot ∉ st0.dirs →
      d.siteName ∉ st0.registry →
      st0.dbs.contains (derive_db_name d.siteName (rnd.getD 1 "")) = false →
      derive_db_user d.siteName (rnd.getD 2 "") ∉ st0.dbUsers →
      derive_db_user d.siteName (rnd.getD 2 "") ≠ "" →
      derive_db_user d.siteName (rnd.getD 2 "") ≠ "root" →
      (run_site_create d orc rnd st0).sys = st0 ∧
      (run_site_create d orc rnd st0).outcome = RunOutcome.fatal logMsg ∧
      (run_site_create d orc rnd st0).trace =
        [StepEv.vhostWebroot, StepEv.registryAdd, StepEv.dbProvision,
         StepEv.phpFpmPool] ∧
      d.siteName ∉ (run_site_create d orc rnd st0).sys.nginxConfs ∧
      d.webroot ∉ (run_site_create d orc rnd st0).sys.dirs ∧
      (run_site_create d orc rnd st0).sys.dbs.contains
        (derive_db_name d.siteName (rnd.getD 1 "")) = false ∧
      derive_db_user d.siteName (rnd.getD 2 "") ∉
        (run_site_create d orc rnd st0).sys.dbUsers ∧
      d.siteName ∉ (run_site_create d orc rnd st0).sys.registry := by
  intro d orc rnd st0 pv hpx hal hsub hwp hdbk hname hweb hstrip hban hpv hpvne
    hpool hver ho1 hodb ho4 ho6 hn1 hw1 hr1 hcol hu1 hune hurt
  obtain ⟨c0, dir0, dbs0, us0, reg0, p0⟩ := st0
  have hmain := mysql_rollback_main d orc rnd pv c0 dir0 dbs0 us0 reg0 p0 hpx hal
    hsub hwp hdbk hname hweb hstrip hban hpv hpvne hpool hver ho1 hodb ho4 ho6
    hn1 hcol hune hurt
  rw [hmain]
  exact ⟨rfl, rfl, rfl, hn1, hw1, hcol, hu1, hr1⟩

/-- Witness for C2: the concrete mysql-site run failing at the pool step
ends in the terminal error with the system state fully restored. -/
theorem mysql_phpfpm_failure_rollback_witness :
    (run_site_create mysqlData failPhpFpm ["PWD123", "AAAAAAAA", "bbbb"] emptySys).sys =
      emptySys ∧
    (run_site_create mysqlData failPhpFpm ["PWD123", "AAAAAAAA", "bbbb"] emptySys).outcome =
      RunOutcome.fatal logMsg :=
  ⟨(mysql_phpfpm_failure_rollback mysqlData failPhpFpm ["PWD123", "AAAAAAAA", "bbbb"]
      emptySys "84" rfl rfl rfl rfl rfl (by decide) (by decide) (by decide)
      (by decide) rfl (by decide) (by decide) (by decide) rfl rfl rfl rfl
      (by decide) (by decide) (by decide) (by decide) (by decide) (by decide)
      (by decide)).1,
   (mysql_phpfpm_failure_rollback mysqlData failPhpFpm ["PWD123", "AAAAAAAA", "bbbb"]
      emptySys "84" rfl rfl rfl rfl rfl (by decide) (by decide) (by decide)
      (by decide) rfl (by decide) (by decide) (by decide) rfl rfl rfl rfl
      (by decide) (by decide) (by decide) (by decide) (by decide) (by decide)
      (by decide)).2.1⟩

theorem char_toNat_ofNat_valid {n : Nat} (h : n.isValidChar) :
    (Char.ofNat n).toNat = n := by
  rw [Char.ofNat, dif_pos h]
  rfl

theorem char_toLower_ne_dot (c : Char) (hc : c ≠ '.') : Char.toLower c ≠ '.' := by
  simp only [Char.toLower]
  split
  · rename_i hr
    intro h
    have h46 := congrArg Char.toNat h
    rw [char_toNat_ofNat_valid (Or.inl (by omega))] at h46
    have hdot : ('.' : Char).toNat = 46 := rfl
    omega
  · exact hc

theorem char_case_dot_comm (c : Char) :
    Char.toLower (if c = '.' then '-' else c) =
      if Char.toLower c = '.' then '-' else Char.toLower c := by
  by_cases hc : c = '.'
  · subst hc
    rfl
  · rw [if_neg hc, if_neg (char_toLower_ne_dot c hc)]

theorem pyReplaceAux_single (a b : Char) :
    ∀ (l : List Char) (fuel : Nat), l.length ≤ fuel →
      pyReplaceAux [a] [b] fuel l = l.map fun c => if c = a then b else c := by
  intro l
  induction l with
  | nil => intro fuel _; cases fuel <;> rfl
  | cons c cs ih =>
    intro fuel hf
    cases fuel with
    | zero => simp at hf
    | succ f =>
      simp only [pyReplaceAux, List.isPrefixOf, List.map_cons]
      by_cases hca : a = c
      · rw [if_pos (by simp [hca]), if_pos (by rw [hca])]
        subst hca
        simp only [List.length_cons, List.length_nil, List.drop_succ_cons,
          List.drop_zero]
        rw [ih f (by simpa using hf)]
        rfl
      · rw [if_neg (by simp [hca]), if_neg (fun h => hca h.symm)]
        rw [ih f (by simpa using hf)]

theorem pyReplace_single (s pat rep : String) (a b : Char)
    (hp : pat.data = [a]) (hr : rep.data = [b]) :
    pyReplace s pat rep = ⟨s.data.map fun c => if c = a then b else c⟩ := by
  simp only [pyReplace, hp, hr]
  rw [if_neg (by simp)]
  rw [pyReplaceAux_single a b s.data s.data.length (Nat.le_refl _)]

theorem pool_name_of_eq_claim (domain : String) :
    pool_name_of domain = pool_name_claim domain := by
  simp only [pool_name_of, pool_name_claim, pyLower]
  rw [pyReplace_single domain "." "-" '.' '-' rfl rfl,
    pyReplace_single ⟨domain.data.map Char.toLower⟩ "." "-" '.' '-' rfl rfl]
  simp only [List.map_map]
  have hfun : (Char.toLower ∘ fun c => if c = '.' then '-' else c) =
      ((fun c => if c = '.' then '-' else c) ∘ Char.toLower) :=
    funext fun c => char_case_dot_comm c
  rw [hfun]

theorem finalize_data_pool_fields (stype : String) (d0 : SiteData)
    (dom webroot : String) (pargsPhp configPhp : Option String)
    (hd0 : d0.phpFpmUser = none) :
    (finalize_data stype d0 dom webroot pargsPhp configPhp).poolName =
      pool_name_of dom ∧
    ((finalize_data stype d0 dom webroot pargsPhp configPhp).phpFpmUser = none ∨
      (finalize_data stype d0 dom webroot pargsPhp configPhp).phpFpmUser =
        some ("php-" ++ pool_name_of dom)) ∧
    ((finalize_data stype d0 dom webroot pargsPhp configPhp).woPhp.isSome = true →
      (finalize_data stype d0 dom webroot pargsPhp configPhp).phpFpmUser =
        some ("php-" ++ pool_name_of dom)) := by
  simp only [finalize_data]
  split
  · exact ⟨rfl, Or.inr rfl, fun _ => rfl⟩
  · rename_i hnone
    refine ⟨rfl, Or.inl ?_, ?_⟩
    · split
      · rfl
      · split
        · rfl
        · split
          · rfl
          · exact hd0
    · intro hsome
      rw [hnone] at hsome
      simp at hsome

theorem build_data_head_phpFpmUser (stype : String) (extra : List (String × String))
    (dom webroot : String) (getSite : String → Option SiteInfoRec)
    (pargsPhp configPhp : Option String) (d : SiteData)
    (h : build_data stype extra dom webroot getSite pargsPhp configPhp = Except.ok d) :
    ∃ d0 : SiteData, d0.phpFpmUser = none ∧
      d = finalize_data stype d0 dom webroot pargsPhp configPhp := by
  simp only [build_data] at h
  split at h
  · exact absurd h (by simp)
  · rename_i d0 hd0
    refine ⟨d0, ?_, (Except.ok.inj h).symm⟩
    repeat' split at hd0
    all_goals
      first
        | ((rw [← Except.ok.inj hd0]) <;> rfl)
        | (simp at hd0)

theorem setupdatabase_preserves_pool (d : SiteData) (orc : DbOracle)
    (rnd : List String) (st : SysState) (d1 : SiteData) (st1 : SysState)
    (h : setupdatabase d orc rnd st = Except.ok (d1, st1)) :
    d1.poolName = d.poolName ∧ d1.phpFpmUser = d.phpFpmUser := by
  obtain ⟨c1, c2, c3, c4⟩ := orc
  cases c1 <;> cases c2 <;> cases c3 <;> cases c4 <;>
    simp [setupdatabase] at h
  obtain ⟨h1, -⟩ := h
  rw [← h1]
  exact ⟨rfl, rfl⟩

theorem db_cleanup_and_fatal_data (d : SiteData) (st : SysState) (tr : List StepEv) :
    (db_cleanup_and_fatal d st tr).data = d := by
  simp only [db_cleanup_and_fatal]
  split
  · split <;> rfl
  · rfl

theorem phase_permissions_data (d : SiteData) (orc : StepOracle) (st : SysState)
    (tr : List StepEv) : (phase_permissions d orc st tr).data = d := by
  simp only [phase_permissions]
  split
  · rfl
  · exact db_cleanup_and_fatal_data ..

theorem phase_reload_final_data (d : SiteData) (orc : StepOracle) (st : SysState)
    (tr : List StepEv) : (phase_reload_final d orc st tr).data = d := by
  simp only [phase_reload_final]
  split
  · exact phase_permissions_data ..
  · exact db_cleanup_and_fatal_data ..

theorem phase_phpfpm_data (d : SiteData) (orc : StepOracle) (st : SysState)
    (tr : List StepEv) : (phase_phpfpm d orc st tr).data = d := by
  simp only [phase_phpfpm]
  split
  · exact phase_reload_final_data ..
  · split
    · exact db_cleanup_and_fatal_data ..
    · split
      · exact phase_reload_final_data ..
      · exact db_cleanup_and_fatal_data ..

theorem phase_wp_pool (d : SiteData) (orc : StepOracle) (rnd : List String)
    (st : SysState) (tr : List StepEv) :
    (phase_wp d orc rnd st tr).data.poolName = d.poolName ∧
    (phase_wp d orc rnd st tr).data.phpFpmUser = d.phpFpmUser := by
  simp only [phase_wp]
  split
  · split
    · split
      · exact ⟨rfl, rfl⟩
      · exact ⟨rfl, rfl⟩
    · rename_i d1 st1 heq
      obtain ⟨hp2, hu2⟩ := setupdatabase_preserves_pool d orc.db rnd st d1 st1 heq
      split
      · rw [phase_phpfpm_data]
        exact ⟨hp2, hu2⟩
      · split
        · exact ⟨hp2, hu2⟩
        · exact ⟨hp2, hu2⟩
  · rw [phase_phpfpm_data]
    exact ⟨rfl, rfl⟩

theorem phase_db_pool (d : SiteData) (orc : StepOracle) (rnd : List String)
    (st : SysState) (tr : List StepEv) :
    (phase_db d orc rnd st tr).data.poolName = d.poolName ∧
    (phase_db d orc rnd st tr).data.phpFpmUser = d.phpFpmUser := by
  simp only [phase_db]
  split
  · split
    · exact ⟨rfl, rfl⟩
    · rename_i d1 st1 heq
      obtain ⟨hp2, hu2⟩ := setupdatabase_preserves_pool d orc.db rnd st d1 st1 heq
      split
      · obtain ⟨hp, hu⟩ := phase_wp_pool d1 orc rnd st1 (tr ++ [StepEv.dbProvision])
        exact ⟨hp.trans hp2, hu.trans hu2⟩
      · exact ⟨hp2, hu2⟩
  · exact phase_wp_pool ..

theorem run_site_create_pool_invariant (d : SiteData) (orc : StepOracle)
    (rnd : List String) (st0 : SysState) :
    (run_site_create d orc rnd st0).data.poolName = d.poolName ∧
    (run_site_create d orc rnd st0).data.phpFpmUser = d.phpFpmUser := by
  simp only [run_site_create]
  split
  · split
    · split
      · exact phase_db_pool ..
      · exact ⟨rfl, rfl⟩
    · exact phase_db_pool ..
  · exact ⟨rfl, rfl⟩

/-- C9: the built data dictionary carries pool_name equal to the domain
lower-cased with dots replaced by dashes; whenever the php-fpm user is set
it equals php- followed by the pool name (and it is set whenever a PHP
version was resolved); no pipeline step changes either field; and the
autoupdate controller derives the same user from its registry entry. -/
theorem pool_name_derivation :
    (∀ (stype : String) (extra : List (String × String)) (dom webroot : String)
        (getSite : String → Option SiteInfoRec) (pargsPhp configPhp : Option String)
        (d : SiteData),
      build_data stype extra dom webroot getSite pargsPhp configPhp = Except.ok d →
      d.poolName = pool_name_claim dom ∧
      (d.phpFpmUser = none ∨ d.phpFpmUser = some ("php-" ++ d.poolName)) ∧
      (d.woPhp.isSome = true → d.phpFpmUser = some ("php-" ++ d.poolName))) ∧
    (∀ (d : SiteData) (orc : StepOracle) (rnd : List String) (st0 : SysState),
      (run_site_create d orc rnd st0).data.poolName = d.poolName ∧
      (run_site_create d orc rnd st0).data.phpFpmUser = d.phpFpmUser) ∧
    (∀ si : SiteInfoRec, site_user si = "php-" ++ pool_name_claim si.sitename) := by
  refine ⟨?_, run_site_create_pool_invariant, ?_⟩
  · intro stype extra dom webroot getSite pargsPhp configPhp d h
    obtain ⟨d0, hd0, hd⟩ :=
      build_data_head_phpFpmUser stype extra dom webroot getSite pargsPhp configPhp d h
    obtain ⟨f1, f2, f3⟩ :=
      finalize_data_pool_fields stype d0 dom webroot pargsPhp configPhp hd0
    subst hd
    refine ⟨f1.trans (pool_name_of_eq_claim dom), ?_, ?_⟩
    · rcases f2 with h2 | h2
      · exact Or.inl h2
      · right
        rw [h2, f1]
    · intro hs
      rw [f3 hs, f1]
  · intro si
    simp only [site_user, site_slug]
    rw [show pyLower (pyReplace si.sitename "." "-") = pool_name_claim si.sitename
      from pool_name_of_eq_claim si.sitename]

/-- Witness for C9: the concrete proxy build of p.example.com has pool
name p-example-com, and the run of the subsite counterexample keeps the
pool fields of its data unchanged. -/
theorem pool_name_derivation_witness :
    (∀ d : SiteData,
      build_data "proxy" [] "P.example.com" "/var/www/p.example.com"
        (fun _ => none) none none = Except.ok d →
      d.poolName = pool_name_claim "P.example.com") ∧
    (run_site_create cexSubsiteData allOk [] emptySys).data.poolName =
      cexSubsiteData.poolName ∧
    site_user demoParent = "php-" ++ pool_name_claim "parent.com" :=
  ⟨fun d hd => (pool_name_derivation.1 "proxy" [] "P.example.com"
      "/var/www/p.example.com" (fun _ => none) none none d hd).1,
   (pool_name_derivation.2.1 cexSubsiteData allOk [] emptySys).1,
   pool_name_derivation.2.2 demoParent⟩

end WordOps
